import Mathlib

/- Shallow embedding of the multi-provider LLM utility of DevReev/mcp-server.
   The repository carries near-duplicate copies of the utility:
   namespace Part000 embeds the full JS edition (src/unnamed/part_000, class LLMUtility);
   namespace RouteJs embeds the compact JS edition (the first document of
   src/app/api/mcp/route.ts).  JavaScript dynamic values are modeled by JsValue,
   thrown exceptions by Except JsErr, the HTTP layer by an oracle Nat -> FetchOutcome
   consumed one fetch call at a time, and the Math.random choice made by the local
   fallback by an extra Nat argument. -/

/-- A JavaScript value as it can appear after JSON.parse, plus undefined. -/
inductive JsValue where
  | undefined
  | null
  | bool (b : Bool)
  | num (q : ℚ)
  | str (s : String)
  | arr (elems : List JsValue)
  | obj (fields : List (String × JsValue))

/-- JavaScript truthiness (NaN is not representable here and is ignored). -/
def truthy : JsValue → Bool
  | .undefined => false
  | .null => false
  | .bool b => b
  | .num q => decide (q ≠ 0)
  | .str s => decide (s ≠ "")
  | .arr _ => true
  | .obj _ => true

/-- A JavaScript runtime error thrown by the embedded code. -/
inductive JsErr where
  | typeError
  | httpError (status : Nat)
  | syntaxError
  | netError
  | unknownProvider (pname : String)
deriving Repr, DecidableEq

/-- Member access on a value already known to be non-nullish: objects look the
field up, everything else (primitives, JSON-derived arrays) yields undefined. -/
def getMember : JsValue → String → JsValue
  | .obj fs, k => match fs.lookup k with
    | some v => v
    | none => .undefined
  | _, _ => .undefined

/-- Plain member access `v.k`: throws a TypeError when `v` is nullish. -/
def dotAccess (v : JsValue) (k : String) : Except JsErr JsValue :=
  match v with
  | .undefined => .error .typeError
  | .null => .error .typeError
  | v => .ok (getMember v k)

/-- Optional member access `v?.k`. -/
def optDot (v : JsValue) (k : String) : JsValue :=
  match v with
  | .undefined => .undefined
  | .null => .undefined
  | v => getMember v k

/-- Optional index access `v?.[i]`. -/
def optIndex (v : JsValue) (i : Nat) : JsValue :=
  match v with
  | .undefined => .undefined
  | .null => .undefined
  | .arr xs => xs.getD i .undefined
  | .str s => match s.data.get? i with
    | some c => .str (String.singleton c)
    | none => .undefined
  | .obj fs => match fs.lookup (toString i) with
    | some v => v
    | none => .undefined
  | _ => .undefined

/-- The JavaScript `a || b`. -/
def jsOr (a b : JsValue) : JsValue := if truthy a then a else b

/-- `field || default` for an optional string-typed context field (an empty
string is falsy and therefore replaced by the default, as in JavaScript). -/
def jsOrString (v : Option String) (d : String) : String :=
  match v with
  | some s => if s = "" then d else s
  | none => d

/-- `field || default` for an optional number-typed context field (0 is falsy
and therefore replaced by the default, as in JavaScript). -/
def jsOrNumber (v : Option ℚ) (d : ℚ) : ℚ :=
  match v with
  | some q => if q = 0 then d else q
  | none => d

mutual

/-- String coercion used by `String.prototype.replace` on its pattern argument.
Only the string case is exercised by any claim. -/
def jsToString : JsValue → String
  | .undefined => "undefined"
  | .null => "null"
  | .bool b => cond b "true" "false"
  | .num q => toString q
  | .str s => s
  | .arr xs => String.intercalate "," (jsToStringElems xs)
  | .obj _ => "[object Object]"

/-- Array elements joined by Array.prototype.toString: nullish elements render
as the empty string. -/
def jsToStringElems : List JsValue → List String
  | [] => []
  | x :: xs =>
    (match x with
     | .undefined => ""
     | .null => ""
     | v => jsToString v) :: jsToStringElems xs

end

/-- `s.replace(pat, "")` with a string pattern: removes the first occurrence of
`pat` in `s`; with an empty pattern it is the identity (inserting "" at 0). -/
def jsReplaceFirst (s pat : String) : String :=
  if pat = "" then s
  else match s.splitOn pat with
  | [] => s
  | [x] => x
  | x :: y :: rest => x ++ String.intercalate pat (y :: rest)

/-- `s.includes(pat)` for strings. -/
def containsSub (s pat : String) : Bool :=
  if pat = "" then true else decide ((s.splitOn pat).length > 1)

/-- `s.trim()`: strip leading and trailing whitespace (structurally, over the
character list; JS also strips rarer Unicode space characters, which no claim
exercises). -/
def jsTrim (s : String) : String :=
  ⟨((s.data.dropWhile Char.isWhitespace).reverse.dropWhile Char.isWhitespace).reverse⟩

/-- Is the value a JavaScript array (Array.isArray)? -/
def isArray : JsValue → Bool
  | .arr _ => true
  | _ => false

/-- Is the value nullish (null or undefined)? -/
def nullish : JsValue → Bool
  | .undefined => true
  | .null => true
  | _ => false

/-- One configured remote backend (the literal objects pushed by
initializeProviders / initProviders in the source). -/
structure Provider where
  pname : String
  endpoint : String
  headers : List (String × String)
  model : String
  priority : Nat
deriving Repr, DecidableEq

/-- Per-call generation options; absent fields model missing object keys. -/
structure GenerationContext where
  systemPrompt : Option String := none
  maxTokens : Option ℚ := none
  temperature : Option ℚ := none
  ctype : Option String := none
  userInfo : Option String := none
  cname : Option String := none
deriving Repr, DecidableEq

/-- How one `fetch` call behaves: either the promise resolves to a response
with a status code and a body (whose `.json()` either yields a value or
throws), or the promise rejects (transport failure or the 30s timeout abort). -/
inductive FetchOutcome where
  | response (status : Nat) (body : Except Unit JsValue)
  | netError

/-- An observable step of a run: one HTTP attempt against a provider, or one
backoff sleep of the given number of milliseconds. -/
inductive Ev where
  | fetch (pname : String)
  | sleep (ms : Nat)
deriving Repr, DecidableEq

/-- What generateText hands back to its caller: the tagged result object, or
(in part_000 with an empty registry) the bare fallback string. -/
inductive GenOut where
  | result (text : JsValue) (provider : String) (model : String)
  | bare (text : String)

/-- A complete run of generateText: the value returned (or exception
propagated), the next unconsumed fetch index, the event trace, and the
outcome of each completed per-provider call attempt sequence. -/
structure GenRun where
  res : Except JsErr GenOut
  next : Nat
  evs : List Ev
  outcomes : List (Except JsErr JsValue)

/-- The openai provider descriptor built when OPENAI_API_KEY is present. -/
def openaiProvider (key : String) : Provider :=
  { pname := "openai"
    endpoint := "https://api.openai.com/v1/chat/completions"
    headers := [("Authorization", "Bearer " ++ key), ("Content-Type", "application/json")]
    model := "gpt-3.5-turbo"
    priority := 1 }

/-- The anthropic provider descriptor built when ANTHROPIC_API_KEY is present. -/
def anthropicProvider (key : String) : Provider :=
  { pname := "anthropic"
    endpoint := "https://api.anthropic.com/v1/messages"
    headers := [("x-api-key", key), ("Content-Type", "application/json"),
                ("anthropic-version", "2023-06-01")]
    model := "claude-3-haiku-20240307"
    priority := 2 }

/-- The huggingface provider descriptor built when HF_TOKEN is present. -/
def hfProvider (key : String) : Provider :=
  { pname := "huggingface"
    endpoint := "https://api-inference.huggingface.co/models/microsoft/DialoGPT-small"
    headers := [("Authorization", "Bearer " ++ key), ("Content-Type", "application/json")]
    model := "microsoft/DialoGPT-small"
    priority := 3 }

/-- Insert a provider into a priority-sorted list (stable for equal priorities). -/
def insertSorted (p : Provider) : List Provider → List Provider
  | [] => [p]
  | q :: qs => if p.priority ≤ q.priority then p :: q :: qs else q :: insertSorted p qs

/-- `providers.sort((a, b) => a.priority - b.priority)`. -/
def sortByPriority : List Provider → List Provider
  | [] => []
  | p :: ps => insertSorted p (sortByPriority ps)

/-- initializeProviders: one descriptor per credential present (and non-empty,
by JS truthiness), sorted ascending by priority. -/
def initializeProviders (openaiKey anthropicKey hfKey : Option String) : List Provider :=
  sortByPriority
    ((match openaiKey with
      | some k => if k = "" then [] else [openaiProvider k]
      | none => [])
     ++ (match anthropicKey with
      | some k => if k = "" then [] else [anthropicProvider k]
      | none => [])
     ++ (match hfKey with
      | some k => if k = "" then [] else [hfProvider k]
      | none => []))

namespace Part000

/-- this.maxRetries in part_000. -/
def maxRetries : Nat := 3

/-- this.retryDelay (milliseconds) in part_000. -/
def retryDelay : Nat := 1000

/-- this.fallbackEnabled, set once in the constructor and never mutated. -/
def fallbackEnabled : Bool := true

/-- formatPayload of part_000: the provider-specific request body; an unknown
provider name hits the default case and throws. -/
def formatPayload (p : Provider) (prompt : String) (ctx : GenerationContext) :
    Except JsErr JsValue :=
  if p.pname = "openai" then
    .ok (.obj
      [("model", .str p.model),
       ("messages", .arr
         [.obj [("role", .str "system"),
                ("content", .str (jsOrString ctx.systemPrompt "You are a helpful assistant."))],
          .obj [("role", .str "user"), ("content", .str prompt)]]),
       ("max_tokens", .num (jsOrNumber ctx.maxTokens 150)),
       ("temperature", .num (jsOrNumber ctx.temperature (8/10))),
       ("top_p", .num (9/10))])
  else if p.pname = "anthropic" then
    .ok (.obj
      [("model", .str p.model),
       ("max_tokens", .num (jsOrNumber ctx.maxTokens 150)),
       ("system", .str (jsOrString ctx.systemPrompt "You are a helpful assistant.")),
       ("messages", .arr [.obj [("role", .str "user"), ("content", .str prompt)]]),
       ("temperature", .num (jsOrNumber ctx.temperature (8/10)))])
  else if p.pname = "huggingface" then
    .ok (.obj
      [("inputs", .str prompt),
       ("parameters", .obj
         [("max_new_tokens", .num (jsOrNumber ctx.maxTokens 150)),
          ("temperature", .num (jsOrNumber ctx.temperature (8/10))),
          ("top_p", .num (9/10)),
          ("do_sample", .bool true)])])
  else .error (.unknownProvider p.pname)

/-- extractResponse of part_000.  The openai case is
`data.choices?.[0]?.message?.content || ""` (the initial `.choices` access
throws on a nullish body); the anthropic case is commented out in the source
and falls to the default ""; the huggingface guard tests
`Array.isArray(data) && data?.generated_text`, which is never truthy for a
JSON-derived array, so that branch returns "". -/
def extractResponse (p : Provider) (data : JsValue) : Except JsErr JsValue :=
  if p.pname = "openai" then
    match dotAccess data "choices" with
    | .error e => .error e
    | .ok c => .ok (jsOr (optDot (optDot (optIndex c 0) "message") "content") (.str ""))
  else if p.pname = "huggingface" then
    if isArray data && truthy (optDot data "generated_text") then
      match getMember data "generated_text" with
      | .str s =>
        .ok (.str (jsTrim (jsReplaceFirst s
          (jsToString (jsOr (getMember data "inputs") (.str ""))))))
      | _ => .error .typeError
    else .ok (.str "")
  else .ok (.str "")

/-- The three pickup-line templates of getFallbackResponse, with the
`context.userInfo || default` placeholders filled in. -/
def pickupTemplates (ctx : GenerationContext) : List String :=
  ["Just like Shah Rukh Khan in his movies, " ++ jsOrString ctx.userInfo "you" ++
     " have made my heart skip a beat!",
   "If I were to write a love story, " ++ jsOrString ctx.userInfo "beautiful" ++
     ", you would be both the beginning and the happy ending.",
   "Main hoon na, " ++ jsOrString ctx.userInfo "gorgeous" ++
     "? Because like SRK, I promise to always be there for you."]

/-- pickRandom: `array[Math.floor(Math.random() * array.length)]`, with the
random draw supplied as an index to reduce modulo the length. -/
def pickRandom (xs : List String) (rnd : Nat) : String :=
  xs.getD (rnd % xs.length) ""

/-- getFallbackResponse of part_000: dispatch on context.type, with keyword
branching on the lowercased prompt for flirty replies. -/
def getFallbackResponse (prompt : String) (ctx : GenerationContext) (rnd : Nat) : String :=
  let promptLower := prompt.toLower
  if ctx.ctype = some "pickup_line" then
    pickRandom (pickupTemplates ctx) rnd
  else if ctx.ctype = some "flirty_reply" then
    if containsSub promptLower "hello" || containsSub promptLower "hi" then
      "Namaste " ++ jsOrString ctx.cname "beautiful" ++
        "! Like in my movies, you\u0027ve made my heart do a little dance 💃"
    else if containsSub promptLower "thank" then
      "Anything for you, " ++ jsOrString ctx.cname "gorgeous" ++
        "! Like I always say in my films — main hoon na! 🤗"
    else
      "You always know just what to say to make me smile, " ++
        jsOrString ctx.cname "beautiful" ++ "! 😊"
  else
    "I\u0027m here to help! Let me know what you\u0027d like to know."

/-- The `response && response.trim().length > 0` test of generateText:
`.trim` on a truthy non-string throws (the error lands in the same catch). -/
def usableCheck (v : JsValue) : Except JsErr Bool :=
  if truthy v then
    match v with
    | .str s => .ok (decide ((jsTrim s).length > 0))
    | _ => .error .typeError
  else .ok false

/-- The attempt loop of callProvider: `attempt` is the 1-based attempt number,
`remaining` the attempts left (the loop runs while attempt <= maxRetries, so
remaining starts at maxRetries).  A 429 sleeps retryDelay * attempt and
retries; every caught error (transport failure, json() failure, extraction
failure, or the thrown non-2xx non-429 HTTP error) is rethrown on the final
attempt and otherwise sleeps retryDelay * attempt and retries; falling off the
loop (429 on the final attempt) returns undefined. -/
def callAttempts (p : Provider) (env : Nat → FetchOutcome) :
    Nat → Nat → Nat → Except JsErr JsValue × Nat × List Ev
  | _, 0, k => (.ok .undefined, k, [])
  | attempt, r + 1, k =>
    match env k with
    | .netError =>
      if attempt = maxRetries then (.error .netError, k + 1, [.fetch p.pname])
      else
        let rec_ := callAttempts p env (attempt + 1) r (k + 1)
        (rec_.1, rec_.2.1, .fetch p.pname :: .sleep (retryDelay * attempt) :: rec_.2.2)
    | .response status body =>
      if 200 ≤ status ∧ status ≤ 299 then
        match body with
        | .error _ =>
          if attempt = maxRetries then (.error .syntaxError, k + 1, [.fetch p.pname])
          else
            let rec_ := callAttempts p env (attempt + 1) r (k + 1)
            (rec_.1, rec_.2.1, .fetch p.pname :: .sleep (retryDelay * attempt) :: rec_.2.2)
        | .ok data =>
          match extractResponse p data with
          | .ok v => (.ok v, k + 1, [.fetch p.pname])
          | .error e =>
            if attempt = maxRetries then (.error e, k + 1, [.fetch p.pname])
            else
              let rec_ := callAttempts p env (attempt + 1) r (k + 1)
              (rec_.1, rec_.2.1, .fetch p.pname :: .sleep (retryDelay * attempt) :: rec_.2.2)
      else if status = 429 then
        let rec_ := callAttempts p env (attempt + 1) r (k + 1)
        (rec_.1, rec_.2.1, .fetch p.pname :: .sleep (retryDelay * attempt) :: rec_.2.2)
      else
        if attempt = maxRetries then (.error (.httpError status), k + 1, [.fetch p.pname])
        else
          let rec_ := callAttempts p env (attempt + 1) r (k + 1)
          (rec_.1, rec_.2.1, .fetch p.pname :: .sleep (retryDelay * attempt) :: rec_.2.2)

/-- callProvider of part_000: build the payload (the unknown-provider throw
escapes the loop), then run the attempt loop. -/
def callProvider (p : Provider) (prompt : String) (ctx : GenerationContext)
    (env : Nat → FetchOutcome) (k : Nat) : Except JsErr JsValue × Nat × List Ev :=
  match formatPayload p prompt ctx with
  | .error e => (.error e, k, [])
  | .ok _payload => callAttempts p env 1 maxRetries k

/-- The provider loop of generateText: on a usable response return the tagged
result; a falsy/whitespace response or a caught error (fallbackEnabled is
always true, so the rethrow branch is dead) moves to the next provider; an
exhausted list returns the tagged local fallback. -/
def genLoop (prompt : String) (ctx : GenerationContext) (env : Nat → FetchOutcome)
    (rnd : Nat) : List Provider → Nat → GenRun
  | [], k =>
    { res := .ok (.result (.str (getFallbackResponse prompt ctx rnd)) "fallback" "local")
      next := k, evs := [], outcomes := [] }
  | p :: ps, k =>
    let c := callProvider p prompt ctx env k
    match c.1 with
    | .ok v =>
      match usableCheck v with
      | .ok true =>
        { res := .ok (.result v p.pname p.model), next := c.2.1, evs := c.2.2,
          outcomes := [.ok v] }
      | .ok false =>
        let R := genLoop prompt ctx env rnd ps c.2.1
        { R with evs := c.2.2 ++ R.evs, outcomes := .ok v :: R.outcomes }
      | .error e =>
        if fallbackEnabled = false then
          { res := .error e, next := c.2.1, evs := c.2.2, outcomes := [.ok v] }
        else
          let R := genLoop prompt ctx env rnd ps c.2.1
          { R with evs := c.2.2 ++ R.evs, outcomes := .ok v :: R.outcomes }
    | .error e =>
      if fallbackEnabled = false then
        { res := .error e, next := c.2.1, evs := c.2.2, outcomes := [.error e] }
      else
        let R := genLoop prompt ctx env rnd ps c.2.1
        { R with evs := c.2.2 ++ R.evs, outcomes := .error e :: R.outcomes }

/-- generateText of part_000.  With an empty registry it returns
`this.getFallbackResponse(prompt, context)` directly: the bare string, not a
tagged result object. -/
def generateText (providers : List Provider) (prompt : String) (ctx : GenerationContext)
    (env : Nat → FetchOutcome) (rnd : Nat) : GenRun :=
  if providers.length = 0 then
    { res := .ok (.bare (getFallbackResponse prompt ctx rnd)), next := 0,
      evs := [], outcomes := [] }
  else genLoop prompt ctx env rnd providers 0

end Part000

namespace RouteJs

/-- this.maxRetries in the compact route.ts edition. -/
def maxRetries : Nat := 3

/-- this.retryDelay (milliseconds) in the compact route.ts edition. -/
def retryDelay : Nat := 1000

/-- makePayload of the compact edition: same payload shapes; the switch has no
default, so an unknown provider name yields undefined without throwing. -/
def makePayload (p : Provider) (prompt : String) (ctx : GenerationContext) : JsValue :=
  if p.pname = "openai" then
    .obj
      [("model", .str p.model),
       ("messages", .arr
         [.obj [("role", .str "system"),
                ("content", .str (jsOrString ctx.systemPrompt "You are a helpful assistant."))],
          .obj [("role", .str "user"), ("content", .str prompt)]]),
       ("max_tokens", .num (jsOrNumber ctx.maxTokens 150)),
       ("temperature", .num (jsOrNumber ctx.temperature (8/10))),
       ("top_p", .num (9/10))]
  else if p.pname = "anthropic" then
    .obj
      [("model", .str p.model),
       ("system", .str (jsOrString ctx.systemPrompt "You are a helpful assistant.")),
       ("messages", .arr [.obj [("role", .str "user"), ("content", .str prompt)]]),
       ("max_tokens", .num (jsOrNumber ctx.maxTokens 150)),
       ("temperature", .num (jsOrNumber ctx.temperature (8/10)))]
  else if p.pname = "huggingface" then
    .obj
      [("inputs", .str prompt),
       ("parameters", .obj
         [("max_new_tokens", .num (jsOrNumber ctx.maxTokens 150)),
          ("temperature", .num (jsOrNumber ctx.temperature (8/10))),
          ("top_p", .num (9/10)),
          ("do_sample", .bool true)])]
  else .undefined

/-- extract of the compact edition.  openai:
`data.choices?.[0]?.message?.content || ""` (throws on a nullish body);
anthropic: `data?.content?.[0]?.text || ""` (fully guarded, total);
huggingface: guarded by `Array.isArray(data) && data[0]?.generated_text`, then
`data[0].generated_text.replace(data[0].inputs || "", "").trim()` (`.replace`
throws when the truthy generated_text is not a string). -/
def extract (p : Provider) (data : JsValue) : Except JsErr JsValue :=
  if p.pname = "openai" then
    match dotAccess data "choices" with
    | .error e => .error e
    | .ok c => .ok (jsOr (optDot (optDot (optIndex c 0) "message") "content") (.str ""))
  else if p.pname = "anthropic" then
    .ok (jsOr (optDot (optIndex (optDot data "content") 0) "text") (.str ""))
  else if p.pname = "huggingface" then
    if isArray data && truthy (optDot (optIndex data 0) "generated_text") then
      match getMember (optIndex data 0) "generated_text" with
      | .str s =>
        .ok (.str (jsTrim (jsReplaceFirst s
          (jsToString (jsOr (getMember (optIndex data 0) "inputs") (.str ""))))))
      | _ => .error .typeError
    else .ok (.str "")
  else .ok (.str "")

/-- fallback of the compact edition: one fixed string for every context. -/
def fallback (_prompt : String) (_ctx : GenerationContext) : String :=
  "🤖 (fallback response)"

/-- The attempt loop of call: no try/catch inside, so a transport failure, a
json() failure, an extraction throw, or the thrown non-2xx non-429 HTTP error
propagates immediately; only a 429 sleeps retryDelay * attempt and retries;
falling off the loop returns undefined. -/
def callAttempts (p : Provider) (env : Nat → FetchOutcome) :
    Nat → Nat → Nat → Except JsErr JsValue × Nat × List Ev
  | _, 0, k => (.ok .undefined, k, [])
  | attempt, r + 1, k =>
    match env k with
    | .netError => (.error .netError, k + 1, [.fetch p.pname])
    | .response status body =>
      if 200 ≤ status ∧ status ≤ 299 then
        match body with
        | .error _ => (.error .syntaxError, k + 1, [.fetch p.pname])
        | .ok data => (extract p data, k + 1, [.fetch p.pname])
      else if status = 429 then
        let rec_ := callAttempts p env (attempt + 1) r (k + 1)
        (rec_.1, rec_.2.1, .fetch p.pname :: .sleep (retryDelay * attempt) :: rec_.2.2)
      else (.error (.httpError status), k + 1, [.fetch p.pname])

/-- call of the compact edition: build the payload (unused by the oracle) and
run the attempt loop. -/
def call (p : Provider) (prompt : String) (ctx : GenerationContext)
    (env : Nat → FetchOutcome) (k : Nat) : Except JsErr JsValue × Nat × List Ev :=
  let _payload := makePayload p prompt ctx
  callAttempts p env 1 maxRetries k

/-- The provider loop of the compact generateText: `if (out)` — plain
truthiness, no trim — returns the tagged result; otherwise, or on any caught
error, the next provider is tried; an exhausted list returns the tagged local
fallback. -/
def genLoop (prompt : String) (ctx : GenerationContext) (env : Nat → FetchOutcome) :
    List Provider → Nat → GenRun
  | [], k =>
    { res := .ok (.result (.str (fallback prompt ctx)) "fallback" "local")
      next := k, evs := [], outcomes := [] }
  | p :: ps, k =>
    let c := call p prompt ctx env k
    match c.1 with
    | .ok v =>
      if truthy v then
        { res := .ok (.result v p.pname p.model), next := c.2.1, evs := c.2.2,
          outcomes := [.ok v] }
      else
        let R := genLoop prompt ctx env ps c.2.1
        { R with evs := c.2.2 ++ R.evs, outcomes := .ok v :: R.outcomes }
    | .error e =>
      let R := genLoop prompt ctx env ps c.2.1
      { R with evs := c.2.2 ++ R.evs, outcomes := .error e :: R.outcomes }

/-- generateText of the compact edition: an empty registry returns the tagged
fallback result directly. -/
def generateText (providers : List Provider) (prompt : String) (ctx : GenerationContext)
    (env : Nat → FetchOutcome) : GenRun :=
  if providers.length = 0 then
    { res := .ok (.result (.str (fallback prompt ctx)) "fallback" "local"), next := 0,
      evs := [], outcomes := [] }
  else genLoop prompt ctx env providers 0

end RouteJs

/-- Is a completed per-provider outcome usable in the sense of part_000 (a string
that is truthy and non-empty after trimming)? -/
def usableOutcome : Except JsErr JsValue → Bool
  | .ok v =>
    match Part000.usableCheck v with
    | .ok b => b
    | .error _ => false
  | .error _ => false

/-- Is a completed per-provider outcome truthy in the sense of the compact edition? -/
def truthyOutcome : Except JsErr JsValue → Bool
  | .ok v => truthy v
  | .error _ => false

/-- Number of HTTP attempts issued against a given provider in a trace. -/
def countFetches (pname : String) (evs : List Ev) : Nat :=
  (evs.filter (fun e => e = .fetch pname)).length

/-- The trace of `t` rate-limited attempts starting at attempt number `i`:
each fetch is followed by the linear-backoff sleep retryDelay * attempt. -/
def backoffTrace (pname : String) : Nat → Nat → List Ev
  | 0, _ => []
  | t + 1, i => .fetch pname :: .sleep (1000 * i) :: backoffTrace pname t (i + 1)

/-- Read a top-level field out of a payload-construction result. -/
def payloadField (r : Except JsErr JsValue) (k : String) : JsValue :=
  match r with
  | .ok v => getMember v k
  | .error _ => .undefined

/-- Modelled from the spec: the max-token field the payload should carry, per
the amended claim — the caller value when supplied and nonzero, 150 when the
field is absent or zero. -/
def specTokenField (v : Option ℚ) : ℚ :=
  match v with
  | some m => if m ≠ 0 then m else 150
  | none => 150

/-- Modelled from the spec: the temperature field the payload should carry,
per the amended claim — the caller value when supplied and nonzero, 0.8 when
the field is absent or zero. -/
def specTemperatureField (v : Option ℚ) : ℚ :=
  match v with
  | some t => if t ≠ 0 then t else 8/10
  | none => 8/10

/-- The bodies on which huggingface extraction of the compact edition throws:
an array whose first element carries a truthy non-string generated_text. -/
def hfThrowCond : JsValue → Bool
  | .arr xs =>
    match getMember (xs.getD 0 .undefined) "generated_text" with
    | .str _ => false
    | .arr _ => true
    | .obj _ => true
    | .bool b => b
    | .num q => decide (q ≠ 0)
    | _ => false
  | _ => false

/-- A concrete openai descriptor for witnesses and counterexamples. -/
def opP : Provider := openaiProvider "k"

/-- A concrete anthropic descriptor for witnesses and counterexamples. -/
def anP : Provider := anthropicProvider "k"

/-- A concrete huggingface descriptor for witnesses and counterexamples. -/
def hfP : Provider := hfProvider "k"

/-- An empty generation context. -/
def ctx0 : GenerationContext := {}

/-- A pickup-line context. -/
def ctxPickup : GenerationContext := { ctype := some "pickup_line" }

/-- A context that explicitly supplies temperature 0. -/
def ctxTemp0 : GenerationContext := { temperature := some 0 }

/-- A successful chat-completion body whose extracted content is "hello". -/
def okBodyHello : JsValue :=
  .obj [("choices", .arr [.obj [("message", .obj [("content", .str "hello")])]])]

/-- A successful chat-completion body whose extracted content is the non-empty
whitespace string " ". -/
def okBodyBlank : JsValue :=
  .obj [("choices", .arr [.obj [("message", .obj [("content", .str " ")])]])]

/-- An oracle that always answers HTTP 200 with the blank-content body. -/
def envBlank : Nat → FetchOutcome := fun _ => .response 200 (.ok okBodyBlank)

/-- An oracle whose first answer is a 429 and whose later answers succeed with
content "hello". -/
def env429Hello : Nat → FetchOutcome := fun n =>
  if n = 0 then .response 429 (.ok .null) else .response 200 (.ok okBodyHello)

/-- An oracle whose first answer is the blank-content success and whose later
answers are transport failures. -/
def envBlankThenNet : Nat → FetchOutcome := fun n =>
  if n = 0 then .response 200 (.ok okBodyBlank) else .netError

/-- An oracle whose first answer is a 429 and whose later answers succeed with
the blank-content body. -/
def env429Blank : Nat → FetchOutcome := fun n =>
  if n = 0 then .response 429 (.ok .null) else .response 200 (.ok okBodyBlank)

/-- An oracle that always fails at the transport layer. -/
def envAllNet : Nat → FetchOutcome := fun _ => .netError

/-- An oracle that always answers HTTP 200 with content "hello". -/
def envHello : Nat → FetchOutcome := fun _ => .response 200 (.ok okBodyHello)

/-- An oracle whose first three answers are transport failures and whose later
answers succeed with content "hello". -/
def envNet3Hello : Nat → FetchOutcome := fun n =>
  if n < 3 then .netError else .response 200 (.ok okBodyHello)

/-- An oracle that always answers HTTP 500. -/
def env500 : Nat → FetchOutcome := fun _ => .response 500 (.ok .null)

/-- An oracle whose first three answers are HTTP 500 and whose later answers
succeed with content "hello". -/
def env500x3Hello : Nat → FetchOutcome := fun n =>
  if n < 3 then .response 500 (.ok .null) else .response 200 (.ok okBodyHello)

/-- A non-empty string has positive length. -/
theorem strLengthPos (s : String) (h : s ≠ "") : 0 < s.length := by
  cases s with
  | mk data =>
    cases data with
    | nil => exact absurd rfl h
    | cons c cs => simp [String.length]

/-- A string whose trim is non-empty is itself non-empty. -/
theorem neOfTrimNe (s : String) (h : jsTrim s ≠ "") : s ≠ "" := by
  intro he
  subst he
  exact h (by decide)

/-- Appending to a non-empty string keeps it non-empty. -/
theorem strAppendNe (a b : String) (h : a ≠ "") : a ++ b ≠ "" := by
  intro he
  have h1 : (a ++ b).length = 0 := by rw [he]; rfl
  rw [String.length_append] at h1
  have h2 := strLengthPos a h
  omega

/-- List.getD stays inside the list when the index is in range. -/
theorem getDMemOfLt {α : Type} (l : List α) (i : Nat) (d : α) (h : i < l.length) :
    l.getD i d ∈ l := by
  induction l generalizing i with
  | nil => simp at h
  | cons x xs ih =>
    cases i with
    | zero => simp [List.getD]
    | succ j =>
      have := ih j (by simpa using h)
      simp only [List.getD] at this ⊢
      exact List.mem_cons_of_mem _ (by simpa using this)

/-- usableCheck accepts exactly the non-whitespace strings. -/
theorem usableCheckStr (s : String) (h : jsTrim s ≠ "") :
    Part000.usableCheck (.str s) = .ok true := by
  have h1 : s ≠ "" := neOfTrimNe s h
  have h2 : 0 < (jsTrim s).length := strLengthPos _ h
  simp [Part000.usableCheck, truthy, h1, h2]

/-- usableCheck yields true only on strings. -/
theorem usableCheckTrue (v : JsValue) (h : Part000.usableCheck v = .ok true) :
    ∃ s, v = .str s ∧ s ≠ "" ∧ 0 < (jsTrim s).length := by
  cases v with
  | str s =>
    refine ⟨s, rfl, ?_, ?_⟩
    · intro he
      subst he
      simp [Part000.usableCheck, truthy] at h
    · by_cases hl : 0 < (jsTrim s).length
      · exact hl
      · exfalso
        by_cases he : s = ""
        · subst he; simp [Part000.usableCheck, truthy] at h
        · simp [Part000.usableCheck, truthy, he, hl] at h
  | undefined => simp [Part000.usableCheck, truthy] at h
  | null => simp [Part000.usableCheck, truthy] at h
  | bool b => cases b <;> simp [Part000.usableCheck, truthy] at h
  | num q => by_cases hq : q = 0 <;> simp [Part000.usableCheck, truthy, hq] at h
  | arr xs => simp [Part000.usableCheck, truthy] at h
  | obj fs => simp [Part000.usableCheck, truthy] at h

/-- Membership in an insertion step. -/
theorem memInsertSorted (p q : Provider) (l : List Provider) :
    q ∈ insertSorted p l ↔ q = p ∨ q ∈ l := by
  induction l with
  | nil => simp [insertSorted]
  | cons r rs ih =>
    by_cases hp : p.priority ≤ r.priority
    · simp [insertSorted, hp]
    · simp [insertSorted, hp, ih]
      tauto

/-- Sorting by priority preserves membership. -/
theorem memSortByPriority (q : Provider) (l : List Provider) :
    q ∈ sortByPriority l ↔ q ∈ l := by
  induction l with
  | nil => simp [sortByPriority]
  | cons r rs ih => simp [sortByPriority, memInsertSorted, ih]

/-- Every provider the registry can contain carries one of the three backend
names; in particular none is literally named "fallback". -/
theorem initializeProvidersNames (o a h : Option String) :
    ∀ p ∈ initializeProviders o a h, p.pname ≠ "fallback" := by
  intro p hp
  unfold initializeProviders at hp
  rw [memSortByPriority] at hp
  simp only [List.mem_append] at hp
  rcases hp with (h1 | h2) | h3
  · cases o with
    | none => simp at h1
    | some k =>
      by_cases hk : k = ""
      · simp [hk] at h1
      · simp [hk] at h1
        subst h1
        simp [openaiProvider]
  · cases a with
    | none => simp at h2
    | some k =>
      by_cases hk : k = ""
      · simp [hk] at h2
      · simp [hk] at h2
        subst h2
        simp [anthropicProvider]
  · cases h with
    | none => simp at h3
    | some k =>
      by_cases hk : k = ""
      · simp [hk] at h3
      · simp [hk] at h3
        subst h3
        simp [hfProvider]

/-- Each filled-in pickup-line template is non-empty. -/
theorem pickupTemplatesNe (ctx : GenerationContext) :
    ∀ x ∈ Part000.pickupTemplates ctx, x ≠ "" := by
  intro x hx
  simp only [Part000.pickupTemplates, List.mem_cons, List.not_mem_nil, or_false] at hx
  rcases hx with h | h | h <;>
    (subst h; exact strAppendNe _ _ (strAppendNe _ _ (by decide)))

/-- The local fallback renderer of part_000 never returns an empty string. -/
theorem getFallbackResponseNe (prompt : String) (ctx : GenerationContext) (rnd : Nat) :
    Part000.getFallbackResponse prompt ctx rnd ≠ "" := by
  rw [Part000.getFallbackResponse]
  by_cases h1 : ctx.ctype = some "pickup_line"
  · rw [if_pos h1]
    apply pickupTemplatesNe ctx
    rw [Part000.pickRandom]
    apply getDMemOfLt
    have : (Part000.pickupTemplates ctx).length = 3 := by simp [Part000.pickupTemplates]
    rw [this]
    exact Nat.mod_lt _ (by norm_num)
  · rw [if_neg h1]
    by_cases h2 : ctx.ctype = some "flirty_reply"
    · rw [if_pos h2]
      by_cases h3 : (containsSub (prompt.toLower) "hello" || containsSub (prompt.toLower) "hi") = true
      · rw [if_pos h3]
        exact strAppendNe _ _ (strAppendNe _ _ (by decide))
      · rw [if_neg h3]
        by_cases h4 : containsSub (prompt.toLower) "thank" = true
        · rw [if_pos h4]
          exact strAppendNe _ _ (strAppendNe _ _ (by decide))
        · rw [if_neg h4]
          exact strAppendNe _ _ (strAppendNe _ _ (by decide))
    · rw [if_neg h2]
      decide

/-- jsOrNumber with default 150 computes the spec-side max-token field. -/
theorem jsOrNumber150 (v : Option ℚ) : jsOrNumber v 150 = specTokenField v := by
  cases v with
  | none => rfl
  | some q =>
    by_cases h : q = 0 <;> simp [jsOrNumber, specTokenField, h]

/-- jsOrNumber with default 0.8 computes the spec-side temperature field. -/
theorem jsOrNumberTemp (v : Option ℚ) : jsOrNumber v (8/10) = specTemperatureField v := by
  cases v with
  | none => rfl
  | some q =>
    by_cases h : q = 0 <;> simp [jsOrNumber, specTemperatureField, h]

/-- optional access agrees with raw member access on every value. -/
theorem optDotEqGetMember (v : JsValue) (k : String) : optDot v k = getMember v k := by
  cases v <;> rfl

/-- A success value is ok. -/
theorem exceptIsOkOk {ε α : Type} (x : α) : (Except.ok (ε := ε) x).isOk = true := rfl

/-- An exception value is not ok. -/
theorem exceptIsOkError {ε α : Type} (e : ε) : (Except.error (α := α) e).isOk = false := rfl

/-- Claim C3 (code_bug evaluation): with an empty provider registry and no
HTTP call issued, the part_000 generateText returns the BARE fallback string
(no provider/model fields, contradicting the claim), while the compact
route.ts generateText returns the tagged result the claim describes. -/
theorem claim3_empty_registry (prompt : String) (ctx : GenerationContext)
    (env : Nat → FetchOutcome) (rnd : Nat) :
    ((Part000.generateText [] prompt ctx env rnd).res
        = .ok (.bare (Part000.getFallbackResponse prompt ctx rnd))
      ∧ (Part000.generateText [] prompt ctx env rnd).evs = []
      ∧ Part000.getFallbackResponse prompt ctx rnd ≠ ""
      ∧ ∀ v prov mdl,
          (Part000.generateText [] prompt ctx env rnd).res ≠ .ok (.result v prov mdl))
    ∧ ((RouteJs.generateText [] prompt ctx env).res
        = .ok (.result (.str (RouteJs.fallback prompt ctx)) "fallback" "local")
      ∧ (RouteJs.generateText [] prompt ctx env).evs = []
      ∧ RouteJs.fallback prompt ctx ≠ "") := by
  refine ⟨⟨rfl, rfl, getFallbackResponseNe prompt ctx rnd, ?_⟩, rfl, rfl,
    (by decide : "🤖 (fallback response)" ≠ "")⟩
  intro v prov mdl hcontra
  have : (Part000.generateText [] prompt ctx env rnd).res
      = .ok (.bare (Part000.getFallbackResponse prompt ctx rnd)) := rfl
  rw [this] at hcontra
  injection hcontra with h1
  exact GenOut.noConfusion h1

/-- Claim C8 (counterexample): the compact route.ts copy also exposes the
local fallback renderer, and for a pickup_line context it returns its one
fixed robot string, which is not a member of the documented pickup-line
template family — so the renderer does not always draw from that family. -/
theorem claim8_counterexample :
    RouteJs.fallback "hi" ctxPickup = "🤖 (fallback response)"
    ∧ "🤖 (fallback response)" ∉ Part000.pickupTemplates ctxPickup
    ∧ ctxPickup.ctype = some "pickup_line" := by
  exact ⟨rfl, by decide, rfl⟩

/-- Claim C8 (amended): the part_000 renderer returns a member of the fixed
template family for pickup_line contexts, the fixed generic helpful-assistant
string for unrecognized types, and a non-empty string in every case; the
compact route.ts renderer returns its single fixed non-empty string for every
context. -/
theorem claim8_fallback_render (prompt : String) (ctx : GenerationContext) (rnd : Nat) :
    (ctx.ctype = some "pickup_line" →
      Part000.getFallbackResponse prompt ctx rnd ∈ Part000.pickupTemplates ctx)
    ∧ (ctx.ctype ≠ some "pickup_line" → ctx.ctype ≠ some "flirty_reply" →
      Part000.getFallbackResponse prompt ctx rnd
        = "I\u0027m here to help! Let me know what you\u0027d like to know.")
    ∧ Part000.getFallbackResponse prompt ctx rnd ≠ ""
    ∧ RouteJs.fallback prompt ctx = "🤖 (fallback response)"
    ∧ "🤖 (fallback response)" ≠ "" := by
  refine ⟨?_, ?_, getFallbackResponseNe prompt ctx rnd, rfl, by decide⟩
  · intro h1
    rw [Part000.getFallbackResponse, if_pos h1, Part000.pickRandom]
    apply getDMemOfLt
    have : (Part000.pickupTemplates ctx).length = 3 := by simp [Part000.pickupTemplates]
    rw [this]
    exact Nat.mod_lt _ (by norm_num)
  · intro h1 h2
    rw [Part000.getFallbackResponse, if_neg h1, if_neg h2]

/-- Claim C8 (witness): the amended statement instantiated at a concrete
pickup-line context. -/
theorem claim8_witness :
    (ctxPickup.ctype = some "pickup_line" →
      Part000.getFallbackResponse "hi" ctxPickup 0 ∈ Part000.pickupTemplates ctxPickup)
    ∧ (ctxPickup.ctype ≠ some "pickup_line" → ctxPickup.ctype ≠ some "flirty_reply" →
      Part000.getFallbackResponse "hi" ctxPickup 0
        = "I\u0027m here to help! Let me know what you\u0027d like to know.")
    ∧ Part000.getFallbackResponse "hi" ctxPickup 0 ≠ ""
    ∧ RouteJs.fallback "hi" ctxPickup = "🤖 (fallback response)"
    ∧ "🤖 (fallback response)" ≠ "" :=
  claim8_fallback_render "hi" ctxPickup 0

/-- Claim C9 (counterexample): a caller-supplied temperature of 0 does not
reach the payload; the `||` default replaces it by 0.8, in both copies. -/
theorem claim9_counterexample :
    ctxTemp0.temperature = some 0
    ∧ payloadField (Part000.formatPayload opP "hi" ctxTemp0) "temperature" = .num (8/10)
    ∧ payloadField (.ok (RouteJs.makePayload opP "hi" ctxTemp0)) "temperature" = .num (8/10)
    ∧ (8/10 : ℚ) ≠ 0 := by
  exact ⟨rfl, rfl, rfl, by norm_num⟩

/-- Claim C9 (amended): in every payload shape of both copies, the max-token
field carries the caller value exactly when it is supplied and nonzero and 150
otherwise, and the temperature field carries the caller value exactly when it
is supplied and nonzero and 0.8 otherwise (a supplied 0 is replaced by the
default, because the source uses the JavaScript falsy `||`). -/
theorem claim9_payload_defaults (okey akey hkey prompt : String) (ctx : GenerationContext) :
    (payloadField (Part000.formatPayload (openaiProvider okey) prompt ctx) "max_tokens"
        = .num (specTokenField ctx.maxTokens)
      ∧ payloadField (Part000.formatPayload (openaiProvider okey) prompt ctx) "temperature"
        = .num (specTemperatureField ctx.temperature))
    ∧ (payloadField (Part000.formatPayload (anthropicProvider akey) prompt ctx) "max_tokens"
        = .num (specTokenField ctx.maxTokens)
      ∧ payloadField (Part000.formatPayload (anthropicProvider akey) prompt ctx) "temperature"
        = .num (specTemperatureField ctx.temperature))
    ∧ (getMember (payloadField (Part000.formatPayload (hfProvider hkey) prompt ctx)
          "parameters") "max_new_tokens" = .num (specTokenField ctx.maxTokens)
      ∧ getMember (payloadField (Part000.formatPayload (hfProvider hkey) prompt ctx)
          "parameters") "temperature" = .num (specTemperatureField ctx.temperature))
    ∧ (payloadField (.ok (RouteJs.makePayload (openaiProvider okey) prompt ctx)) "max_tokens"
        = .num (specTokenField ctx.maxTokens)
      ∧ payloadField (.ok (RouteJs.makePayload (openaiProvider okey) prompt ctx)) "temperature"
        = .num (specTemperatureField ctx.temperature))
    ∧ (payloadField (.ok (RouteJs.makePayload (anthropicProvider akey) prompt ctx)) "max_tokens"
        = .num (specTokenField ctx.maxTokens)
      ∧ payloadField (.ok (RouteJs.makePayload (anthropicProvider akey) prompt ctx)) "temperature"
        = .num (specTemperatureField ctx.temperature))
    ∧ (getMember (payloadField (.ok (RouteJs.makePayload (hfProvider hkey) prompt ctx))
          "parameters") "max_new_tokens" = .num (specTokenField ctx.maxTokens)
      ∧ getMember (payloadField (.ok (RouteJs.makePayload (hfProvider hkey) prompt ctx))
          "parameters") "temperature" = .num (specTemperatureField ctx.temperature)) := by
  refine ⟨⟨?_, ?_⟩, ⟨?_, ?_⟩, ⟨?_, ?_⟩, ⟨?_, ?_⟩, ⟨?_, ?_⟩, ⟨?_, ?_⟩⟩ <;>
    first
      | (rw [← jsOrNumber150 ctx.maxTokens]; rfl)
      | (rw [← jsOrNumberTemp ctx.temperature]; rfl)

/-- Claim C10 (counterexample): extraction is not total — on a null JSON body
the chat-completion rule evaluates `data.choices` and throws a TypeError, in
both copies, instead of returning a string. -/
theorem claim10_counterexample :
    Part000.extractResponse opP .null = .error .typeError
    ∧ RouteJs.extract opP .null = .error .typeError
    ∧ opP.pname = "openai" := by
  exact ⟨rfl, rfl, rfl⟩

/-- Claim C10 (amended): extraction throws exactly on (a) a nullish body under
the chat-completion rule, in both copies, and (b) in the compact copy only, an
array body whose first element carries a truthy non-string generated_text; on
every other body it returns without throwing (the empty string on absent or
malformed shapes). -/
theorem claim10_extract_totality (p : Provider) (d : JsValue) :
    ((Part000.extractResponse p d).isOk = false ↔ (p.pname = "openai" ∧ nullish d = true))
    ∧ ((RouteJs.extract p d).isOk = false ↔
        ((p.pname = "openai" ∧ nullish d = true)
         ∨ (p.pname = "huggingface" ∧ hfThrowCond d = true))) := by
  constructor
  · by_cases h : p.pname = "openai"
    · cases d <;> simp [Part000.extractResponse, h, dotAccess, nullish, exceptIsOkOk, exceptIsOkError]
    · by_cases h2 : p.pname = "huggingface"
      · cases d <;>
          simp [Part000.extractResponse, h, h2, nullish, isArray, optDot, getMember, truthy,
            exceptIsOkOk, exceptIsOkError]
      · cases d <;> simp [Part000.extractResponse, h, h2, nullish, exceptIsOkOk, exceptIsOkError]
  · by_cases h : p.pname = "openai"
    · cases d <;> simp [RouteJs.extract, h, dotAccess, nullish, hfThrowCond, exceptIsOkOk, exceptIsOkError]
    · by_cases h2 : p.pname = "anthropic"
      · cases d <;> simp [RouteJs.extract, h, h2, nullish, hfThrowCond, exceptIsOkOk, exceptIsOkError]
      · by_cases h3 : p.pname = "huggingface"
        · cases d with
          | arr xs =>
            rw [RouteJs.extract, if_neg (by simp [h3]), if_neg (by simp [h3]), if_pos h3]
            simp only [optIndex, optDotEqGetMember, isArray, Bool.true_and, hfThrowCond,
              nullish]
            generalize getMember (xs.getD 0 JsValue.undefined) "generated_text" = w
            cases w with
            | undefined => simp [truthy, h, h3, exceptIsOkOk, exceptIsOkError]
            | null => simp [truthy, h, h3, exceptIsOkOk, exceptIsOkError]
            | bool b => cases b <;> simp [truthy, h, h3, exceptIsOkOk, exceptIsOkError]
            | num q =>
              by_cases hq : q = 0 <;> simp [truthy, h, h3, hq, exceptIsOkOk, exceptIsOkError]
            | str s =>
              by_cases hs : s = "" <;> simp [truthy, h, h3, hs, exceptIsOkOk, exceptIsOkError]
            | arr ys => simp [truthy, h, h3, exceptIsOkOk, exceptIsOkError]
            | obj fs => simp [truthy, h, h3, exceptIsOkOk, exceptIsOkError]
          | undefined => simp [RouteJs.extract, h, h2, h3, nullish, hfThrowCond, isArray,
              exceptIsOkOk, exceptIsOkError]
          | null => simp [RouteJs.extract, h, h2, h3, nullish, hfThrowCond, isArray,
              exceptIsOkOk, exceptIsOkError]
          | bool b => simp [RouteJs.extract, h, h2, h3, nullish, hfThrowCond, isArray,
              exceptIsOkOk, exceptIsOkError]
          | num q => simp [RouteJs.extract, h, h2, h3, nullish, hfThrowCond, isArray,
              exceptIsOkOk, exceptIsOkError]
          | str s => simp [RouteJs.extract, h, h2, h3, nullish, hfThrowCond, isArray,
              exceptIsOkOk, exceptIsOkError]
          | obj fs => simp [RouteJs.extract, h, h2, h3, nullish, hfThrowCond, isArray,
              exceptIsOkOk, exceptIsOkError]
        · cases d <;> simp [RouteJs.extract, h, h2, h3, nullish, hfThrowCond, exceptIsOkOk, exceptIsOkError]

/-- Case analysis of the part_000 provider loop: either every completed
per-provider outcome was unusable and the run ends in the tagged local
fallback, or some provider in the list returned a usable value and is the one
named in the result. -/
theorem part000GenLoopSpec (prompt : String) (ctx : GenerationContext)
    (env : Nat → FetchOutcome) (rnd : Nat) (ps : List Provider) :
    ∀ k : Nat,
      ((Part000.genLoop prompt ctx env rnd ps k).res
          = .ok (.result (.str (Part000.getFallbackResponse prompt ctx rnd)) "fallback" "local")
        ∧ ∀ oc ∈ (Part000.genLoop prompt ctx env rnd ps k).outcomes, usableOutcome oc = false)
      ∨ (∃ p v, p ∈ ps
          ∧ (Part000.genLoop prompt ctx env rnd ps k).res = .ok (.result v p.pname p.model)
          ∧ Part000.usableCheck v = .ok true
          ∧ ∃ oc ∈ (Part000.genLoop prompt ctx env rnd ps k).outcomes,
              usableOutcome oc = true) := by
  induction ps with
  | nil =>
    intro k
    left
    constructor
    · rfl
    · intro oc hoc
      simp [Part000.genLoop] at hoc
  | cons p ps ih =>
    intro k
    cases hc : (Part000.callProvider p prompt ctx env k).1 with
    | ok v =>
      cases hu : Part000.usableCheck v with
      | ok b =>
        cases b with
        | true =>
          right
          refine ⟨p, v, List.mem_cons_self p ps, ?_, hu, .ok v, ?_, ?_⟩
          · simp only [Part000.genLoop, hc, hu]
          · simp only [Part000.genLoop, hc, hu]
            simp
          · simp [usableOutcome, hu]
        | false =>
          rcases ih ((Part000.callProvider p prompt ctx env k).2.1) with
            ⟨hres, hout⟩ | ⟨p', v', hm, hres, hu', oc, hom, hov⟩
          · left
            constructor
            · simp only [Part000.genLoop, hc, hu]
              exact hres
            · intro oc hoc
              simp only [Part000.genLoop, hc, hu, List.mem_cons] at hoc
              rcases hoc with rfl | hoc2
              · simp [usableOutcome, hu]
              · exact hout oc hoc2
          · right
            refine ⟨p', v', List.mem_cons_of_mem p hm, ?_, hu', oc, ?_, hov⟩
            · simp only [Part000.genLoop, hc, hu]
              exact hres
            · simp only [Part000.genLoop, hc, hu, List.mem_cons]
              exact Or.inr hom
      | error e2 =>
        rcases ih ((Part000.callProvider p prompt ctx env k).2.1) with
          ⟨hres, hout⟩ | ⟨p', v', hm, hres, hu', oc, hom, hov⟩
        · left
          constructor
          · simp only [Part000.genLoop, hc, hu, Part000.fallbackEnabled]
            simp only [Bool.true_eq_false, if_false]
            exact hres
          · intro oc hoc
            simp only [Part000.genLoop, hc, hu, Part000.fallbackEnabled,
              Bool.true_eq_false, if_false, List.mem_cons] at hoc
            rcases hoc with rfl | hoc2
            · simp [usableOutcome, hu]
            · exact hout oc hoc2
        · right
          refine ⟨p', v', List.mem_cons_of_mem p hm, ?_, hu', oc, ?_, hov⟩
          · simp only [Part000.genLoop, hc, hu, Part000.fallbackEnabled,
              Bool.true_eq_false, if_false]
            exact hres
          · simp only [Part000.genLoop, hc, hu, Part000.fallbackEnabled,
              Bool.true_eq_false, if_false, List.mem_cons]
            exact Or.inr hom
    | error e =>
      rcases ih ((Part000.callProvider p prompt ctx env k).2.1) with
        ⟨hres, hout⟩ | ⟨p', v', hm, hres, hu', oc, hom, hov⟩
      · left
        constructor
        · simp only [Part000.genLoop, hc, Part000.fallbackEnabled,
            Bool.true_eq_false, if_false]
          exact hres
        · intro oc hoc
          simp only [Part000.genLoop, hc, Part000.fallbackEnabled,
            Bool.true_eq_false, if_false, List.mem_cons] at hoc
          rcases hoc with rfl | hoc2
          · simp [usableOutcome]
          · exact hout oc hoc2
      · right
        refine ⟨p', v', List.mem_cons_of_mem p hm, ?_, hu', oc, ?_, hov⟩
        · simp only [Part000.genLoop, hc, Part000.fallbackEnabled,
            Bool.true_eq_false, if_false]
          exact hres
        · simp only [Part000.genLoop, hc, Part000.fallbackEnabled,
            Bool.true_eq_false, if_false, List.mem_cons]
          exact Or.inr hom

/-- Case analysis of the compact route.ts provider loop: either every
completed outcome was falsy or failed and the run ends in the tagged local
fallback, or some provider returned a truthy value and is the one named in
the result. -/
theorem routeJsGenLoopSpec (prompt : String) (ctx : GenerationContext)
    (env : Nat → FetchOutcome) (ps : List Provider) :
    ∀ k : Nat,
      ((RouteJs.genLoop prompt ctx env ps k).res
          = .ok (.result (.str (RouteJs.fallback prompt ctx)) "fallback" "local")
        ∧ ∀ oc ∈ (RouteJs.genLoop prompt ctx env ps k).outcomes, truthyOutcome oc = false)
      ∨ (∃ p v, p ∈ ps
          ∧ (RouteJs.genLoop prompt ctx env ps k).res = .ok (.result v p.pname p.model)
          ∧ truthy v = true
          ∧ ∃ oc ∈ (RouteJs.genLoop prompt ctx env ps k).outcomes,
              truthyOutcome oc = true) := by
  induction ps with
  | nil =>
    intro k
    left
    constructor
    · rfl
    · intro oc hoc
      simp [RouteJs.genLoop] at hoc
  | cons p ps ih =>
    intro k
    cases hc : (RouteJs.call p prompt ctx env k).1 with
    | ok v =>
      cases ht : truthy v with
      | true =>
        right
        refine ⟨p, v, List.mem_cons_self p ps, ?_, ht, .ok v, ?_, ?_⟩
        · simp only [RouteJs.genLoop, hc, ht, eq_self_iff_true, if_true]
        · simp only [RouteJs.genLoop, hc, ht, eq_self_iff_true, if_true]
          simp
        · simp [truthyOutcome, ht]
      | false =>
        rcases ih ((RouteJs.call p prompt ctx env k).2.1) with
          ⟨hres, hout⟩ | ⟨p', v', hm, hres, ht', oc, hom, hov⟩
        · left
          constructor
          · simp only [RouteJs.genLoop, hc, ht, Bool.false_eq_true, if_false]
            exact hres
          · intro oc hoc
            simp only [RouteJs.genLoop, hc, ht, Bool.false_eq_true, if_false, List.mem_cons] at hoc
            rcases hoc with rfl | hoc2
            · simp [truthyOutcome, ht]
            · exact hout oc hoc2
        · right
          refine ⟨p', v', List.mem_cons_of_mem p hm, ?_, ht', oc, ?_, hov⟩
          · simp only [RouteJs.genLoop, hc, ht, Bool.false_eq_true, if_false]
            exact hres
          · simp only [RouteJs.genLoop, hc, ht, Bool.false_eq_true, if_false, List.mem_cons]
            exact Or.inr hom
    | error e =>
      rcases ih ((RouteJs.call p prompt ctx env k).2.1) with
        ⟨hres, hout⟩ | ⟨p', v', hm, hres, ht', oc, hom, hov⟩
      · left
        constructor
        · simp only [RouteJs.genLoop, hc]
          exact hres
        · intro oc hoc
          simp only [RouteJs.genLoop, hc, List.mem_cons] at hoc
          rcases hoc with rfl | hoc2
          · simp [truthyOutcome]
          · exact hout oc hoc2
      · right
        refine ⟨p', v', List.mem_cons_of_mem p hm, ?_, ht', oc, ?_, hov⟩
        · simp only [RouteJs.genLoop, hc]
          exact hres
        · simp only [RouteJs.genLoop, hc, List.mem_cons]
          exact Or.inr hom

/-- Claim C1: whatever the registry, the prompt, the context, the random draw
and however every HTTP call behaves (any status, transport failure, malformed
body, or extraction throw), generateText of both copies returns a value and
never propagates an exception to its caller. -/
theorem claim1_never_throws (providers : List Provider) (prompt : String)
    (ctx : GenerationContext) (env : Nat → FetchOutcome) (rnd : Nat) :
    (Part000.generateText providers prompt ctx env rnd).res.isOk = true
    ∧ (RouteJs.generateText providers prompt ctx env).res.isOk = true := by
  constructor
  · rw [Part000.generateText]
    by_cases h : providers.length = 0
    · rw [if_pos h]
      rfl
    · rw [if_neg h]
      rcases part000GenLoopSpec prompt ctx env rnd providers 0 with
        ⟨hres, _⟩ | ⟨p, v, _, hres, _, _⟩ <;> rw [hres] <;> rfl
  · rw [RouteJs.generateText]
    by_cases h : providers.length = 0
    · rw [if_pos h]
      rfl
    · rw [if_neg h]
      rcases routeJsGenLoopSpec prompt ctx env providers 0 with
        ⟨hres, _⟩ | ⟨p, v, _, hres, _, _⟩ <;> rw [hres] <;> rfl

/-- Claim C2 (counterexample): a remote provider call produced the non-empty
extracted text " ", yet the part_000 result is fallback-tagged — the
returned-iff-non-empty reading of usable output fails, because part_000
additionally requires the text to survive trimming. -/
theorem claim2_counterexample :
    Part000.extractResponse opP okBodyBlank = .ok (.str " ")
    ∧ (" " : String) ≠ ""
    ∧ (Part000.generateText [opP] "hi" ctx0 envBlank 0).res
        = .ok (.result (.str "I\u0027m here to help! Let me know what you\u0027d like to know.")
            "fallback" "local") :=
  ⟨rfl, by decide, rfl⟩

/-- Claim C2 (amended): on any registry the source can build, when it is
non-empty, every part_000 generateText call returns a tagged result whose text
is a non-empty string, and the provider tag is "fallback" exactly when no
completed remote call produced usable extracted text (a string that is truthy
and non-empty after trimming). -/
theorem claim2_usable_iff (o a h : Option String) (prompt : String)
    (ctx : GenerationContext) (env : Nat → FetchOutcome) (rnd : Nat)
    (hne : initializeProviders o a h ≠ []) :
    ∃ s prov mdl,
      (Part000.generateText (initializeProviders o a h) prompt ctx env rnd).res
        = .ok (.result (.str s) prov mdl)
      ∧ s ≠ ""
      ∧ (prov = "fallback" ↔
          ∀ oc ∈ (Part000.generateText (initializeProviders o a h) prompt ctx env rnd).outcomes,
            usableOutcome oc = false) := by
  have hlen : ¬(initializeProviders o a h).length = 0 := by
    intro hcl
    exact hne (List.length_eq_zero.mp hcl)
  rw [Part000.generateText, if_neg hlen]
  rcases part000GenLoopSpec prompt ctx env rnd (initializeProviders o a h) 0 with
    ⟨hres, hout⟩ | ⟨p, v, hm, hres, hu, oc, hom, hov⟩
  · exact ⟨_, "fallback", "local", hres, getFallbackResponseNe prompt ctx rnd,
      fun _ => hout, fun _ => rfl⟩
  · obtain ⟨s, rfl, hs1, _⟩ := usableCheckTrue v hu
    refine ⟨s, p.pname, p.model, hres, hs1, ?_, ?_⟩
    · intro hp
      exact absurd hp (initializeProvidersNames o a h p hm)
    · intro hall
      have := hall oc hom
      rw [hov] at this
      cases this

/-- Claim C2 (witness): a concrete one-provider registry whose only call fails
at the transport layer; the theorem yields the fallback-tagged non-empty
result with the usable-output equivalence. -/
theorem claim2_witness :
    (initializeProviders (some "k") none none ≠ [])
    ∧ ∃ s prov mdl,
      (Part000.generateText (initializeProviders (some "k") none none) "hi" ctx0 envAllNet 0).res
        = .ok (.result (.str s) prov mdl)
      ∧ s ≠ ""
      ∧ (prov = "fallback" ↔
          ∀ oc ∈ (Part000.generateText (initializeProviders (some "k") none none)
              "hi" ctx0 envAllNet 0).outcomes,
            usableOutcome oc = false) :=
  ⟨by decide, claim2_usable_iff (some "k") none none "hi" ctx0 envAllNet 0 (by decide)⟩

/-- The part_000 attempt loop under `t` rate-limit answers followed by a
successful extraction: the success is returned after exactly t + 1 fetches,
each retry preceded by the linear-backoff sleep. -/
theorem part000Attempts429 (p : Provider) (env : Nat → FetchOutcome) :
    ∀ (t i r k : Nat), t < r →
    (∀ j, j < t → ∃ b, env (k + j) = .response 429 b) →
    ∀ (st : Nat) (body v : JsValue),
      200 ≤ st → st ≤ 299 → env (k + t) = .response st (.ok body) →
      Part000.extractResponse p body = .ok v →
      Part000.callAttempts p env i r k
        = (.ok v, k + t + 1, backoffTrace p.pname t i ++ [.fetch p.pname]) := by
  intro t
  induction t with
  | zero =>
    intro i r k hr h429 st body v h1 h2 henv hex
    obtain ⟨r', rfl⟩ : ∃ r', r = r' + 1 := ⟨r - 1, by omega⟩
    rw [Nat.add_zero] at henv
    simp only [Part000.callAttempts, henv, hex, if_pos (And.intro h1 h2)]
    simp [backoffTrace]
  | succ t ih =>
    intro i r k hr h429 st body v h1 h2 henv hex
    obtain ⟨r', rfl⟩ : ∃ r', r = r' + 1 := ⟨r - 1, by omega⟩
    obtain ⟨b, hb⟩ := h429 0 (by omega)
    rw [Nat.add_zero] at hb
    have hrec := ih (i + 1) r' (k + 1) (by omega)
      (fun j hj => by
        obtain ⟨b2, hb2⟩ := h429 (j + 1) (by omega)
        exact ⟨b2, by rw [show k + 1 + j = k + (j + 1) by omega]; exact hb2⟩)
      st body v h1 h2
      (by rw [show k + 1 + t = k + (t + 1) by omega]; exact henv) hex
    simp only [Part000.callAttempts, hb]
    rw [if_pos trivial]
    simp only [hrec]
    have hn : k + 1 + t + 1 = k + (t + 1) + 1 := by omega
    simp [backoffTrace, Part000.retryDelay, hn]

/-- The compact attempt loop under `t` rate-limit answers followed by a
successful extraction: identical 429 behavior. -/
theorem routeAttempts429 (p : Provider) (env : Nat → FetchOutcome) :
    ∀ (t i r k : Nat), t < r →
    (∀ j, j < t → ∃ b, env (k + j) = .response 429 b) →
    ∀ (st : Nat) (body v : JsValue),
      200 ≤ st → st ≤ 299 → env (k + t) = .response st (.ok body) →
      RouteJs.extract p body = .ok v →
      RouteJs.callAttempts p env i r k
        = (.ok v, k + t + 1, backoffTrace p.pname t i ++ [.fetch p.pname]) := by
  intro t
  induction t with
  | zero =>
    intro i r k hr h429 st body v h1 h2 henv hex
    obtain ⟨r', rfl⟩ : ∃ r', r = r' + 1 := ⟨r - 1, by omega⟩
    rw [Nat.add_zero] at henv
    simp only [RouteJs.callAttempts, henv, hex, if_pos (And.intro h1 h2)]
    simp [backoffTrace]
  | succ t ih =>
    intro i r k hr h429 st body v h1 h2 henv hex
    obtain ⟨r', rfl⟩ : ∃ r', r = r' + 1 := ⟨r - 1, by omega⟩
    obtain ⟨b, hb⟩ := h429 0 (by omega)
    rw [Nat.add_zero] at hb
    have hrec := ih (i + 1) r' (k + 1) (by omega)
      (fun j hj => by
        obtain ⟨b2, hb2⟩ := h429 (j + 1) (by omega)
        exact ⟨b2, by rw [show k + 1 + j = k + (j + 1) by omega]; exact hb2⟩)
      st body v h1 h2
      (by rw [show k + 1 + t = k + (t + 1) by omega]; exact henv) hex
    simp only [RouteJs.callAttempts, hb]
    rw [if_pos trivial]
    simp only [hrec]
    have hn : k + 1 + t + 1 = k + (t + 1) + 1 := by omega
    simp [backoffTrace, RouteJs.retryDelay, hn]

/-- Three consecutive transport failures exhaust the part_000 attempt budget:
three fetches, backoff sleeps after the first two, and the error is rethrown
only on the final attempt. -/
theorem part000AttemptsNet3 (p : Provider) (env : Nat → FetchOutcome) (k : Nat)
    (h0 : env k = .netError) (h1 : env (k + 1) = .netError) (h2 : env (k + 2) = .netError) :
    Part000.callAttempts p env 1 3 k
      = (.error .netError, k + 3,
         [.fetch p.pname, .sleep 1000, .fetch p.pname, .sleep 2000, .fetch p.pname]) := by
  simp only [Part000.callAttempts, h0, h1, h2, Part000.maxRetries, Part000.retryDelay]
  norm_num

/-- Three consecutive non-2xx non-429 responses exhaust the part_000 attempt
budget the same way, rethrowing the HTTP error on the final attempt. -/
theorem part000AttemptsHttp3 (p : Provider) (env : Nat → FetchOutcome) (k c : Nat)
    (b0 b1 b2 : Except Unit JsValue)
    (hc : ¬(200 ≤ c ∧ c ≤ 299)) (hc429 : c ≠ 429)
    (h0 : env k = .response c b0) (h1 : env (k + 1) = .response c b1)
    (h2 : env (k + 2) = .response c b2) :
    Part000.callAttempts p env 1 3 k
      = (.error (.httpError c), k + 3,
         [.fetch p.pname, .sleep 1000, .fetch p.pname, .sleep 2000, .fetch p.pname]) := by
  simp only [Part000.callAttempts, h0, h1, h2, Part000.maxRetries, Part000.retryDelay,
    if_neg hc, if_neg hc429]
  norm_num

/-- A transport failure aborts a compact-edition call at once: one fetch, no
retry, the rejection propagates out of call. -/
theorem routeAttemptsNet (p : Provider) (env : Nat → FetchOutcome) (k : Nat)
    (h0 : env k = .netError) :
    RouteJs.callAttempts p env 1 3 k = (.error .netError, k + 1, [.fetch p.pname]) := by
  simp only [RouteJs.callAttempts, h0]

/-- A non-2xx non-429 response aborts a compact-edition call at once: one
fetch, no retry, the thrown HTTP error propagates out of call. -/
theorem routeAttemptsHttp (p : Provider) (env : Nat → FetchOutcome) (k c : Nat)
    (b0 : Except Unit JsValue) (hc : ¬(200 ≤ c ∧ c ≤ 299)) (hc429 : c ≠ 429)
    (h0 : env k = .response c b0) :
    RouteJs.callAttempts p env 1 3 k = (.error (.httpError c), k + 1, [.fetch p.pname]) := by
  simp only [RouteJs.callAttempts, h0]
  rw [if_neg hc, if_neg hc429]

/-- For the three configured backend kinds the part_000 payload construction
succeeds, so callProvider reduces to its attempt loop. -/
theorem part000CallProviderEq (p : Provider) (prompt : String) (ctx : GenerationContext)
    (env : Nat → FetchOutcome) (k : Nat)
    (hname : p.pname = "openai" ∨ p.pname = "anthropic" ∨ p.pname = "huggingface") :
    Part000.callProvider p prompt ctx env k = Part000.callAttempts p env 1 3 k := by
  rcases hname with hn | hn | hn <;> simp [Part000.callProvider, Part000.formatPayload, hn,
    Part000.maxRetries]

/-- The compact call always reduces to its attempt loop. -/
theorem routeCallEq (p : Provider) (prompt : String) (ctx : GenerationContext)
    (env : Nat → FetchOutcome) (k : Nat) :
    RouteJs.call p prompt ctx env k = RouteJs.callAttempts p env 1 3 k := rfl

/-- Unfolding the part_000 provider loop at a usable first provider. -/
theorem part000GenLoopConsOk (prompt : String) (ctx : GenerationContext)
    (env : Nat → FetchOutcome) (rnd : Nat) (p : Provider) (ps : List Provider)
    (k k2 : Nat) (v : JsValue) (evs : List Ev)
    (hcp : Part000.callProvider p prompt ctx env k = (.ok v, k2, evs))
    (hu : Part000.usableCheck v = .ok true) :
    Part000.genLoop prompt ctx env rnd (p :: ps) k
      = { res := .ok (.result v p.pname p.model), next := k2, evs := evs,
          outcomes := [.ok v] } := by
  simp only [Part000.genLoop, hcp, hu]

/-- Unfolding the part_000 provider loop at a failed first provider. -/
theorem part000GenLoopConsErr (prompt : String) (ctx : GenerationContext)
    (env : Nat → FetchOutcome) (rnd : Nat) (p : Provider) (ps : List Provider)
    (k k2 : Nat) (e : JsErr) (evs : List Ev)
    (hcp : Part000.callProvider p prompt ctx env k = (.error e, k2, evs)) :
    Part000.genLoop prompt ctx env rnd (p :: ps) k
      = { res := (Part000.genLoop prompt ctx env rnd ps k2).res
          next := (Part000.genLoop prompt ctx env rnd ps k2).next
          evs := evs ++ (Part000.genLoop prompt ctx env rnd ps k2).evs
          outcomes := .error e :: (Part000.genLoop prompt ctx env rnd ps k2).outcomes } := by
  simp only [Part000.genLoop, hcp, Part000.fallbackEnabled, Bool.true_eq_false, if_false]

/-- Unfolding the compact provider loop at a truthy first provider. -/
theorem routeGenLoopConsOk (prompt : String) (ctx : GenerationContext)
    (env : Nat → FetchOutcome) (p : Provider) (ps : List Provider)
    (k k2 : Nat) (v : JsValue) (evs : List Ev)
    (hcp : RouteJs.call p prompt ctx env k = (.ok v, k2, evs))
    (ht : truthy v = true) :
    RouteJs.genLoop prompt ctx env (p :: ps) k
      = { res := .ok (.result v p.pname p.model), next := k2, evs := evs,
          outcomes := [.ok v] } := by
  simp only [RouteJs.genLoop, hcp, ht, eq_self_iff_true, if_true]

/-- Unfolding the compact provider loop at a failed first provider. -/
theorem routeGenLoopConsErr (prompt : String) (ctx : GenerationContext)
    (env : Nat → FetchOutcome) (p : Provider) (ps : List Provider)
    (k k2 : Nat) (e : JsErr) (evs : List Ev)
    (hcp : RouteJs.call p prompt ctx env k = (.error e, k2, evs)) :
    RouteJs.genLoop prompt ctx env (p :: ps) k
      = { res := (RouteJs.genLoop prompt ctx env ps k2).res
          next := (RouteJs.genLoop prompt ctx env ps k2).next
          evs := evs ++ (RouteJs.genLoop prompt ctx env ps k2).evs
          outcomes := .error e :: (RouteJs.genLoop prompt ctx env ps k2).outcomes } := by
  simp only [RouteJs.genLoop, hcp]

/-- Each fetch in a backoff prefix counts once toward the attempt total. -/
theorem countFetchesBackoff (pname : String) : ∀ t i,
    countFetches pname (backoffTrace pname t i ++ [.fetch pname]) = t + 1 := by
  intro t
  induction t with
  | zero =>
    intro i
    simp [backoffTrace, countFetches]
  | succ t ih =>
    intro i
    have h := ih (i + 1)
    simp only [countFetches, List.filter_append, List.length_append] at h ⊢
    simp [backoffTrace, List.filter_cons] at h ⊢
    omega

/-- Claim C4 (counterexample): the openai endpoint answers 429 once (k = 1 <
maxRetries) and then succeeds with the non-empty extracted text " ", yet
part_000 generateText does not return that provider result — it falls back,
because the whitespace answer fails its trim test. -/
theorem claim4_counterexample :
    env429Blank 0 = .response 429 (.ok .null)
    ∧ (1 : Nat) < 3
    ∧ Part000.extractResponse opP okBodyBlank = .ok (.str " ")
    ∧ (" " : String) ≠ ""
    ∧ (Part000.generateText [opP] "hi" ctx0 env429Blank 0).res
        = .ok (.result (.str "I\u0027m here to help! Let me know what you\u0027d like to know.")
            "fallback" "local")
    ∧ ("fallback" : String) ≠ "openai" :=
  ⟨rfl, by norm_num, rfl, by decide, rfl, by decide⟩

/-- Claim C4 (amended): if a provider answers 429 on exactly k < maxRetries
attempts and then succeeds with extracted text that is non-empty after
trimming, generateText of both copies returns that provider result; the
attempt count against the provider is k + 1 and the wait before the retry
following attempt i is retryDelay * i = 1000 * i ms. -/
theorem claim4_retry429 (kk : Nat) (p : Provider) (rest : List Provider)
    (prompt : String) (ctx : GenerationContext) (env : Nat → FetchOutcome) (rnd : Nat)
    (st : Nat) (body : JsValue) (s : String)
    (hk : kk < 3)
    (hname : p.pname = "openai" ∨ p.pname = "anthropic" ∨ p.pname = "huggingface")
    (h429 : ∀ j, j < kk → ∃ b, env j = .response 429 b)
    (hst1 : 200 ≤ st) (hst2 : st ≤ 299)
    (henv : env kk = .response st (.ok body))
    (hex : Part000.extractResponse p body = .ok (.str s))
    (hexR : RouteJs.extract p body = .ok (.str s))
    (hs : jsTrim s ≠ "") :
    ((Part000.generateText (p :: rest) prompt ctx env rnd).res
        = .ok (.result (.str s) p.pname p.model)
      ∧ (Part000.generateText (p :: rest) prompt ctx env rnd).evs
        = backoffTrace p.pname kk 1 ++ [.fetch p.pname]
      ∧ countFetches p.pname (Part000.generateText (p :: rest) prompt ctx env rnd).evs
        = kk + 1)
    ∧ ((RouteJs.generateText (p :: rest) prompt ctx env).res
        = .ok (.result (.str s) p.pname p.model)
      ∧ (RouteJs.generateText (p :: rest) prompt ctx env).evs
        = backoffTrace p.pname kk 1 ++ [.fetch p.pname]
      ∧ countFetches p.pname (RouteJs.generateText (p :: rest) prompt ctx env).evs
        = kk + 1) := by
  have hlen : ¬((p :: rest).length = 0) := by simp
  have h0 : ∀ j, j < kk → ∃ b, env (0 + j) = .response 429 b := by simpa using h429
  have henv0 : env (0 + kk) = .response st (.ok body) := by simpa using henv
  constructor
  · have hcp : Part000.callProvider p prompt ctx env 0
        = (.ok (.str s), 0 + kk + 1, backoffTrace p.pname kk 1 ++ [.fetch p.pname]) := by
      rw [part000CallProviderEq p prompt ctx env 0 hname]
      exact part000Attempts429 p env kk 1 3 0 hk h0 st body (.str s) hst1 hst2 henv0 hex
    have hG : Part000.generateText (p :: rest) prompt ctx env rnd
        = { res := .ok (.result (.str s) p.pname p.model), next := 0 + kk + 1,
            evs := backoffTrace p.pname kk 1 ++ [.fetch p.pname],
            outcomes := [.ok (.str s)] } := by
      rw [Part000.generateText, if_neg hlen]
      exact part000GenLoopConsOk prompt ctx env rnd p rest 0 (0 + kk + 1) (.str s) _
        hcp (usableCheckStr s hs)
    refine ⟨by rw [hG], by rw [hG], ?_⟩
    rw [hG]
    exact countFetchesBackoff p.pname kk 1
  · have hcp : RouteJs.call p prompt ctx env 0
        = (.ok (.str s), 0 + kk + 1, backoffTrace p.pname kk 1 ++ [.fetch p.pname]) := by
      rw [routeCallEq]
      exact routeAttempts429 p env kk 1 3 0 hk h0 st body (.str s) hst1 hst2 henv0 hexR
    have ht : truthy (.str s) = true := by
      simp [truthy, neOfTrimNe s hs]
    have hG : RouteJs.generateText (p :: rest) prompt ctx env
        = { res := .ok (.result (.str s) p.pname p.model), next := 0 + kk + 1,
            evs := backoffTrace p.pname kk 1 ++ [.fetch p.pname],
            outcomes := [.ok (.str s)] } := by
      rw [RouteJs.generateText, if_neg hlen]
      exact routeGenLoopConsOk prompt ctx env p rest 0 (0 + kk + 1) (.str s) _ hcp ht
    refine ⟨by rw [hG], by rw [hG], ?_⟩
    rw [hG]
    exact countFetchesBackoff p.pname kk 1

/-- Claim C4 (witness): openai answers 429 once then succeeds with "hello";
both copies return the openai result after two attempts with a 1000 ms wait
between them. -/
theorem claim4_witness :
    (1 : Nat) < 3
    ∧ jsTrim "hello" ≠ ""
    ∧ ((Part000.generateText [opP] "hi" ctx0 env429Hello 0).res
        = .ok (.result (.str "hello") "openai" "gpt-3.5-turbo")
      ∧ (Part000.generateText [opP] "hi" ctx0 env429Hello 0).evs
        = backoffTrace "openai" 1 1 ++ [.fetch "openai"]
      ∧ countFetches "openai" (Part000.generateText [opP] "hi" ctx0 env429Hello 0).evs
        = 2)
    ∧ ((RouteJs.generateText [opP] "hi" ctx0 env429Hello).res
        = .ok (.result (.str "hello") "openai" "gpt-3.5-turbo")
      ∧ (RouteJs.generateText [opP] "hi" ctx0 env429Hello).evs
        = backoffTrace "openai" 1 1 ++ [.fetch "openai"]
      ∧ countFetches "openai" (RouteJs.generateText [opP] "hi" ctx0 env429Hello).evs
        = 2) := by
  have H := claim4_retry429 1 opP [] "hi" ctx0 env429Hello 0 200 okBodyHello "hello"
    (by norm_num) (Or.inl rfl)
    (fun j hj => ⟨.ok .null, by
      have hj0 : j = 0 := by omega
      subst hj0
      rfl⟩)
    (by norm_num) (by norm_num) rfl rfl rfl (by decide)
  exact ⟨by norm_num, by decide, H.1, H.2⟩

/-- Claim C5 (counterexample): the first provider answers non-empty extracted
text " " on its first attempt, yet part_000 does not return immediately with
that text — a subsequent provider is invoked and the run ends in fallback. -/
theorem claim5_counterexample :
    envBlankThenNet 0 = .response 200 (.ok okBodyBlank)
    ∧ Part000.extractResponse opP okBodyBlank = .ok (.str " ")
    ∧ (" " : String) ≠ ""
    ∧ Ev.fetch "anthropic" ∈ (Part000.generateText [opP, anP] "hi" ctx0 envBlankThenNet 0).evs
    ∧ (Part000.generateText [opP, anP] "hi" ctx0 envBlankThenNet 0).res
        = .ok (.result (.str "I\u0027m here to help! Let me know what you\u0027d like to know.")
            "fallback" "local") :=
  ⟨rfl, rfl, by decide, by decide, rfl⟩

/-- Claim C5 (amended): if the first provider in registry order yields, on its
first attempt, extracted text that is non-empty after trimming, generateText
of both copies returns immediately with that text and the provider name and
model; exactly one provider is invoked (the trace is a single fetch and the
outcome list has one entry). -/
theorem claim5_first_success (p : Provider) (rest : List Provider)
    (prompt : String) (ctx : GenerationContext) (env : Nat → FetchOutcome) (rnd : Nat)
    (st : Nat) (body : JsValue) (s : String)
    (hname : p.pname = "openai" ∨ p.pname = "anthropic" ∨ p.pname = "huggingface")
    (hst1 : 200 ≤ st) (hst2 : st ≤ 299)
    (henv : env 0 = .response st (.ok body))
    (hex : Part000.extractResponse p body = .ok (.str s))
    (hexR : RouteJs.extract p body = .ok (.str s))
    (hs : jsTrim s ≠ "") :
    ((Part000.generateText (p :: rest) prompt ctx env rnd).res
        = .ok (.result (.str s) p.pname p.model)
      ∧ (Part000.generateText (p :: rest) prompt ctx env rnd).evs = [.fetch p.pname]
      ∧ (Part000.generateText (p :: rest) prompt ctx env rnd).outcomes = [.ok (.str s)])
    ∧ ((RouteJs.generateText (p :: rest) prompt ctx env).res
        = .ok (.result (.str s) p.pname p.model)
      ∧ (RouteJs.generateText (p :: rest) prompt ctx env).evs = [.fetch p.pname]
      ∧ (RouteJs.generateText (p :: rest) prompt ctx env).outcomes = [.ok (.str s)]) := by
  have hlen : ¬((p :: rest).length = 0) := by simp
  have henv0 : env (0 + 0) = .response st (.ok body) := by simpa using henv
  have h0 : ∀ j, j < 0 → ∃ b, env (0 + j) = .response 429 b :=
    fun j hj => absurd hj (Nat.not_lt_zero j)
  constructor
  · have hcp : Part000.callProvider p prompt ctx env 0
        = (.ok (.str s), 0 + 0 + 1, backoffTrace p.pname 0 1 ++ [.fetch p.pname]) := by
      rw [part000CallProviderEq p prompt ctx env 0 hname]
      exact part000Attempts429 p env 0 1 3 0 (by norm_num) h0 st body (.str s)
        hst1 hst2 henv0 hex
    have hG : Part000.generateText (p :: rest) prompt ctx env rnd
        = { res := .ok (.result (.str s) p.pname p.model), next := 0 + 0 + 1,
            evs := backoffTrace p.pname 0 1 ++ [.fetch p.pname],
            outcomes := [.ok (.str s)] } := by
      rw [Part000.generateText, if_neg hlen]
      exact part000GenLoopConsOk prompt ctx env rnd p rest 0 (0 + 0 + 1) (.str s) _
        hcp (usableCheckStr s hs)
    refine ⟨by rw [hG], ?_, by rw [hG]⟩
    rw [hG]
    simp [backoffTrace]
  · have hcp : RouteJs.call p prompt ctx env 0
        = (.ok (.str s), 0 + 0 + 1, backoffTrace p.pname 0 1 ++ [.fetch p.pname]) := by
      rw [routeCallEq]
      exact routeAttempts429 p env 0 1 3 0 (by norm_num) h0 st body (.str s)
        hst1 hst2 henv0 hexR
    have ht : truthy (.str s) = true := by
      simp [truthy, neOfTrimNe s hs]
    have hG : RouteJs.generateText (p :: rest) prompt ctx env
        = { res := .ok (.result (.str s) p.pname p.model), next := 0 + 0 + 1,
            evs := backoffTrace p.pname 0 1 ++ [.fetch p.pname],
            outcomes := [.ok (.str s)] } := by
      rw [RouteJs.generateText, if_neg hlen]
      exact routeGenLoopConsOk prompt ctx env p rest 0 (0 + 0 + 1) (.str s) _ hcp ht
    refine ⟨by rw [hG], ?_, by rw [hG]⟩
    rw [hG]
    simp [backoffTrace]

/-- Claim C5 (witness): openai succeeds with "hello" on the very first
attempt; both copies return immediately and the trace shows a single fetch
with the second provider untouched. -/
theorem claim5_witness :
    jsTrim "hello" ≠ ""
    ∧ ((Part000.generateText [opP, anP] "hi" ctx0 envHello 0).res
        = .ok (.result (.str "hello") "openai" "gpt-3.5-turbo")
      ∧ (Part000.generateText [opP, anP] "hi" ctx0 envHello 0).evs = [.fetch "openai"]
      ∧ (Part000.generateText [opP, anP] "hi" ctx0 envHello 0).outcomes
        = [.ok (.str "hello")])
    ∧ ((RouteJs.generateText [opP, anP] "hi" ctx0 envHello).res
        = .ok (.result (.str "hello") "openai" "gpt-3.5-turbo")
      ∧ (RouteJs.generateText [opP, anP] "hi" ctx0 envHello).evs = [.fetch "openai"]
      ∧ (RouteJs.generateText [opP, anP] "hi" ctx0 envHello).outcomes
        = [.ok (.str "hello")]) := by
  have H := claim5_first_success opP [anP] "hi" ctx0 envHello 0 200 okBodyHello "hello"
    (Or.inl rfl) (by norm_num) (by norm_num) rfl rfl rfl (by decide)
  exact ⟨by decide, H.1, H.2⟩

/-- Claim C6 (counterexample): in the compact route.ts copy a transport error
is not retried at all — the provider is skipped after a single attempt, not
after the 3-attempt budget the claim describes. -/
theorem claim6_counterexample :
    envAllNet 0 = .netError
    ∧ (RouteJs.generateText [opP] "hi" ctx0 envAllNet).evs = [.fetch "openai"]
    ∧ (RouteJs.generateText [opP] "hi" ctx0 envAllNet).res
        = .ok (.result (.str "🤖 (fallback response)") "fallback" "local")
    ∧ countFetches "openai" [.fetch "openai"] = 1
    ∧ (1 : Nat) ≠ 3 :=
  ⟨rfl, rfl, rfl, rfl, by norm_num⟩

/-- Claim C6 (amended): a transport or timeout failure never reaches the
caller and the orchestrator continues with the next provider in both copies,
but the attempt budget differs: the part_000 callProvider treats the failure
as an attempt failure and retries with the 429 backoff, issuing all 3 attempts
(sleeping 1000 then 2000 ms) before the provider is skipped, while the compact
route.ts call lets the rejection propagate at once, so the provider is skipped
after exactly one attempt. -/
theorem claim6_transport_error (p q : Provider) (prompt : String)
    (ctx : GenerationContext) (env : Nat → FetchOutcome) (rnd : Nat)
    (st : Nat) (body : JsValue) (s : String)
    (hnameP : p.pname = "openai" ∨ p.pname = "anthropic" ∨ p.pname = "huggingface")
    (hnameQ : q.pname = "openai" ∨ q.pname = "anthropic" ∨ q.pname = "huggingface")
    (h0 : env 0 = .netError) (h1 : env 1 = .netError) (h2 : env 2 = .netError)
    (hst1 : 200 ≤ st) (hst2 : st ≤ 299)
    (henv3 : env 3 = .response st (.ok body))
    (hexQ : Part000.extractResponse q body = .ok (.str s))
    (hs : jsTrim s ≠ "") :
    ((Part000.generateText [p, q] prompt ctx env rnd).res
        = .ok (.result (.str s) q.pname q.model)
      ∧ (Part000.generateText [p, q] prompt ctx env rnd).evs
        = [.fetch p.pname, .sleep 1000, .fetch p.pname, .sleep 2000, .fetch p.pname,
           .fetch q.pname]
      ∧ (Part000.generateText [p, q] prompt ctx env rnd).outcomes
        = [.error .netError, .ok (.str s)])
    ∧ ((RouteJs.generateText [p, q] prompt ctx env).res
        = .ok (.result (.str (RouteJs.fallback prompt ctx)) "fallback" "local")
      ∧ (RouteJs.generateText [p, q] prompt ctx env).evs
        = [.fetch p.pname, .fetch q.pname]
      ∧ (RouteJs.generateText [p, q] prompt ctx env).outcomes
        = [.error .netError, .error .netError]) := by
  have hlen : ¬(([p, q] : List Provider).length = 0) := by simp
  constructor
  · have hcpP : Part000.callProvider p prompt ctx env 0
        = (.error .netError, 0 + 3,
           [.fetch p.pname, .sleep 1000, .fetch p.pname, .sleep 2000, .fetch p.pname]) := by
      rw [part000CallProviderEq p prompt ctx env 0 hnameP]
      exact part000AttemptsNet3 p env 0 (by simpa using h0) (by simpa using h1)
        (by simpa using h2)
    have hcpQ : Part000.callProvider q prompt ctx env (0 + 3)
        = (.ok (.str s), 0 + 3 + 0 + 1, backoffTrace q.pname 0 1 ++ [.fetch q.pname]) := by
      rw [part000CallProviderEq q prompt ctx env (0 + 3) hnameQ]
      exact part000Attempts429 q env 0 1 3 (0 + 3) (by norm_num)
        (fun j hj => absurd hj (Nat.not_lt_zero j)) st body (.str s) hst1 hst2
        (by simpa using henv3) hexQ
    have hinner : Part000.genLoop prompt ctx env rnd [q] (0 + 3)
        = { res := .ok (.result (.str s) q.pname q.model), next := 0 + 3 + 0 + 1,
            evs := backoffTrace q.pname 0 1 ++ [.fetch q.pname],
            outcomes := [.ok (.str s)] } :=
      part000GenLoopConsOk prompt ctx env rnd q [] (0 + 3) (0 + 3 + 0 + 1) (.str s) _
        hcpQ (usableCheckStr s hs)
    have houter := part000GenLoopConsErr prompt ctx env rnd p [q] 0 (0 + 3) .netError _ hcpP
    have hG : Part000.generateText [p, q] prompt ctx env rnd
        = { res := .ok (.result (.str s) q.pname q.model), next := 0 + 3 + 0 + 1,
            evs := [.fetch p.pname, .sleep 1000, .fetch p.pname, .sleep 2000, .fetch p.pname]
              ++ (backoffTrace q.pname 0 1 ++ [.fetch q.pname]),
            outcomes := .error .netError :: [.ok (.str s)] } := by
      rw [Part000.generateText, if_neg hlen, houter, hinner]
    refine ⟨by rw [hG], ?_, by rw [hG]⟩
    rw [hG]
    simp [backoffTrace]
  · have hcallP : RouteJs.call p prompt ctx env 0
        = (.error .netError, 0 + 1, [.fetch p.pname]) := by
      rw [routeCallEq]
      exact routeAttemptsNet p env 0 h0
    have hcallQ : RouteJs.call q prompt ctx env (0 + 1)
        = (.error .netError, 0 + 1 + 1, [.fetch q.pname]) := by
      rw [routeCallEq]
      exact routeAttemptsNet q env (0 + 1) (by simpa using h1)
    have hinner := routeGenLoopConsErr prompt ctx env q [] (0 + 1) (0 + 1 + 1)
      .netError _ hcallQ
    have houter := routeGenLoopConsErr prompt ctx env p [q] 0 (0 + 1) .netError _ hcallP
    have hG : RouteJs.generateText [p, q] prompt ctx env
        = { res := .ok (.result (.str (RouteJs.fallback prompt ctx)) "fallback" "local")
            next := 0 + 1 + 1
            evs := [.fetch p.pname] ++ ([.fetch q.pname] ++ [])
            outcomes := .error .netError :: [.error .netError] } := by
      rw [RouteJs.generateText, if_neg hlen, houter, hinner]
      rfl
    refine ⟨by rw [hG], ?_, by rw [hG]⟩
    rw [hG]
    simp

/-- Claim C6 (witness): a transport-dead anthropic endpoint followed by a
healthy openai endpoint; part_000 issues three attempts with 1000 and 2000 ms
backoffs before failing over, the compact copy fails over after one. -/
theorem claim6_witness :
    envNet3Hello 0 = .netError
    ∧ jsTrim "hello" ≠ ""
    ∧ ((Part000.generateText [anP, opP] "hi" ctx0 envNet3Hello 0).res
        = .ok (.result (.str "hello") "openai" "gpt-3.5-turbo")
      ∧ (Part000.generateText [anP, opP] "hi" ctx0 envNet3Hello 0).evs
        = [.fetch "anthropic", .sleep 1000, .fetch "anthropic", .sleep 2000,
           .fetch "anthropic", .fetch "openai"]
      ∧ (Part000.generateText [anP, opP] "hi" ctx0 envNet3Hello 0).outcomes
        = [.error .netError, .ok (.str "hello")])
    ∧ ((RouteJs.generateText [anP, opP] "hi" ctx0 envNet3Hello).res
        = .ok (.result (.str "🤖 (fallback response)") "fallback" "local")
      ∧ (RouteJs.generateText [anP, opP] "hi" ctx0 envNet3Hello).evs
        = [.fetch "anthropic", .fetch "openai"]
      ∧ (RouteJs.generateText [anP, opP] "hi" ctx0 envNet3Hello).outcomes
        = [.error .netError, .error .netError]) := by
  have H := claim6_transport_error anP opP "hi" ctx0 envNet3Hello 0 200 okBodyHello "hello"
    (Or.inr (Or.inl rfl)) (Or.inl rfl) rfl rfl rfl (by norm_num) (by norm_num) rfl rfl
    (by decide)
  exact ⟨rfl, by decide, H.1, H.2⟩

/-- Claim C7 (counterexample): on HTTP 500 the part_000 copy does not skip the
provider immediately — it issues all three attempts with backoff sleeps before
moving on. -/
theorem claim7_counterexample :
    env500 0 = .response 500 (.ok .null)
    ∧ (Part000.generateText [opP] "hi" ctx0 env500 0).evs
        = [.fetch "openai", .sleep 1000, .fetch "openai", .sleep 2000, .fetch "openai"]
    ∧ countFetches "openai" (Part000.generateText [opP] "hi" ctx0 env500 0).evs = 3
    ∧ (3 : Nat) ≠ 1
    ∧ (Part000.generateText [opP] "hi" ctx0 env500 0).res
        = .ok (.result (.str "I\u0027m here to help! Let me know what you\u0027d like to know.")
            "fallback" "local") :=
  ⟨rfl, rfl, rfl, by norm_num, rfl⟩

/-- Claim C7 (amended): a non-2xx non-429 status never reaches the caller and
the orchestrator continues with the next provider in both copies, but only the
compact route.ts call skips the provider immediately (a single attempt: the
thrown HTTP error propagates out of the loop); the part_000 callProvider
catches the same throw and retries it like a transient failure, issuing all 3
attempts with backoff before the provider is skipped. -/
theorem claim7_http_error (p q : Provider) (prompt : String)
    (ctx : GenerationContext) (env : Nat → FetchOutcome) (rnd : Nat)
    (c : Nat) (b0 b1 b2 : Except Unit JsValue)
    (st : Nat) (body : JsValue) (s : String)
    (hnameP : p.pname = "openai" ∨ p.pname = "anthropic" ∨ p.pname = "huggingface")
    (hnameQ : q.pname = "openai" ∨ q.pname = "anthropic" ∨ q.pname = "huggingface")
    (hc : ¬(200 ≤ c ∧ c ≤ 299)) (hc429 : c ≠ 429)
    (h0 : env 0 = .response c b0) (h1 : env 1 = .response c b1)
    (h2 : env 2 = .response c b2)
    (hst1 : 200 ≤ st) (hst2 : st ≤ 299)
    (henv3 : env 3 = .response st (.ok body))
    (hexQ : Part000.extractResponse q body = .ok (.str s))
    (hs : jsTrim s ≠ "") :
    ((Part000.generateText [p, q] prompt ctx env rnd).res
        = .ok (.result (.str s) q.pname q.model)
      ∧ (Part000.generateText [p, q] prompt ctx env rnd).evs
        = [.fetch p.pname, .sleep 1000, .fetch p.pname, .sleep 2000, .fetch p.pname,
           .fetch q.pname]
      ∧ (Part000.generateText [p, q] prompt ctx env rnd).outcomes
        = [.error (.httpError c), .ok (.str s)])
    ∧ ((RouteJs.generateText [p, q] prompt ctx env).res
        = .ok (.result (.str (RouteJs.fallback prompt ctx)) "fallback" "local")
      ∧ (RouteJs.generateText [p, q] prompt ctx env).evs
        = [.fetch p.pname, .fetch q.pname]
      ∧ (RouteJs.generateText [p, q] prompt ctx env).outcomes
        = [.error (.httpError c), .error (.httpError c)]) := by
  have hlen : ¬(([p, q] : List Provider).length = 0) := by simp
  constructor
  · have hcpP : Part000.callProvider p prompt ctx env 0
        = (.error (.httpError c), 0 + 3,
           [.fetch p.pname, .sleep 1000, .fetch p.pname, .sleep 2000, .fetch p.pname]) := by
      rw [part000CallProviderEq p prompt ctx env 0 hnameP]
      exact part000AttemptsHttp3 p env 0 c b0 b1 b2 hc hc429 (by simpa using h0)
        (by simpa using h1) (by simpa using h2)
    have hcpQ : Part000.callProvider q prompt ctx env (0 + 3)
        = (.ok (.str s), 0 + 3 + 0 + 1, backoffTrace q.pname 0 1 ++ [.fetch q.pname]) := by
      rw [part000CallProviderEq q prompt ctx env (0 + 3) hnameQ]
      exact part000Attempts429 q env 0 1 3 (0 + 3) (by norm_num)
        (fun j hj => absurd hj (Nat.not_lt_zero j)) st body (.str s) hst1 hst2
        (by simpa using henv3) hexQ
    have hinner : Part000.genLoop prompt ctx env rnd [q] (0 + 3)
        = { res := .ok (.result (.str s) q.pname q.model), next := 0 + 3 + 0 + 1,
            evs := backoffTrace q.pname 0 1 ++ [.fetch q.pname],
            outcomes := [.ok (.str s)] } :=
      part000GenLoopConsOk prompt ctx env rnd q [] (0 + 3) (0 + 3 + 0 + 1) (.str s) _
        hcpQ (usableCheckStr s hs)
    have houter := part000GenLoopConsErr prompt ctx env rnd p [q] 0 (0 + 3)
      (.httpError c) _ hcpP
    have hG : Part000.generateText [p, q] prompt ctx env rnd
        = { res := .ok (.result (.str s) q.pname q.model), next := 0 + 3 + 0 + 1,
            evs := [.fetch p.pname, .sleep 1000, .fetch p.pname, .sleep 2000, .fetch p.pname]
              ++ (backoffTrace q.pname 0 1 ++ [.fetch q.pname]),
            outcomes := .error (.httpError c) :: [.ok (.str s)] } := by
      rw [Part000.generateText, if_neg hlen, houter, hinner]
    refine ⟨by rw [hG], ?_, by rw [hG]⟩
    rw [hG]
    simp [backoffTrace]
  · have hcallP : RouteJs.call p prompt ctx env 0
        = (.error (.httpError c), 0 + 1, [.fetch p.pname]) := by
      rw [routeCallEq]
      exact routeAttemptsHttp p env 0 c b0 hc hc429 h0
    have hcallQ : RouteJs.call q prompt ctx env (0 + 1)
        = (.error (.httpError c), 0 + 1 + 1, [.fetch q.pname]) := by
      rw [routeCallEq]
      exact routeAttemptsHttp q env (0 + 1) c b1 hc hc429 (by simpa using h1)
    have hinner := routeGenLoopConsErr prompt ctx env q [] (0 + 1) (0 + 1 + 1)
      (.httpError c) _ hcallQ
    have houter := routeGenLoopConsErr prompt ctx env p [q] 0 (0 + 1) (.httpError c) _ hcallP
    have hG : RouteJs.generateText [p, q] prompt ctx env
        = { res := .ok (.result (.str (RouteJs.fallback prompt ctx)) "fallback" "local")
            next := 0 + 1 + 1
            evs := [.fetch p.pname] ++ ([.fetch q.pname] ++ [])
            outcomes := .error (.httpError c) :: [.error (.httpError c)] } := by
      rw [RouteJs.generateText, if_neg hlen, houter, hinner]
      rfl
    refine ⟨by rw [hG], ?_, by rw [hG]⟩
    rw [hG]
    simp

/-- Claim C7 (witness): an anthropic endpoint answering HTTP 500 followed by a
healthy openai endpoint; part_000 burns its full 3-attempt budget on the 500s
before failing over, the compact copy fails over after one attempt. -/
theorem claim7_witness :
    env500x3Hello 0 = .response 500 (.ok .null)
    ∧ ¬(200 ≤ 500 ∧ 500 ≤ 299)
    ∧ (500 : Nat) ≠ 429
    ∧ ((Part000.generateText [anP, opP] "hi" ctx0 env500x3Hello 0).res
        = .ok (.result (.str "hello") "openai" "gpt-3.5-turbo")
      ∧ (Part000.generateText [anP, opP] "hi" ctx0 env500x3Hello 0).evs
        = [.fetch "anthropic", .sleep 1000, .fetch "anthropic", .sleep 2000,
           .fetch "anthropic", .fetch "openai"]
      ∧ (Part000.generateText [anP, opP] "hi" ctx0 env500x3Hello 0).outcomes
        = [.error (.httpError 500), .ok (.str "hello")])
    ∧ ((RouteJs.generateText [anP, opP] "hi" ctx0 env500x3Hello).res
        = .ok (.result (.str "🤖 (fallback response)") "fallback" "local")
      ∧ (RouteJs.generateText [anP, opP] "hi" ctx0 env500x3Hello).evs
        = [.fetch "anthropic", .fetch "openai"]
      ∧ (RouteJs.generateText [anP, opP] "hi" ctx0 env500x3Hello).outcomes
        = [.error (.httpError 500), .error (.httpError 500)]) := by
  have H := claim7_http_error anP opP "hi" ctx0 env500x3Hello 0 500
    (.ok .null) (.ok .null) (.ok .null) 200 okBodyHello "hello"
    (Or.inr (Or.inl rfl)) (Or.inl rfl) (by norm_num) (by norm_num)
    rfl rfl rfl (by norm_num) (by norm_num) rfl rfl (by decide)
  exact ⟨rfl, by norm_num, by norm_num, H.1, H.2⟩
